import Mathlib

/-!
# Verification of the engine boundary layer of `crime-scene`

A shallow embedding of `src/api/engineAdapter.ts`: the sanitizer functions,
the deterministic mulberry32 RNG, the mock simulation engine with its action
state machine, and the snapshot store of both the mock and the live adapter.

Modelling conventions:
* JavaScript strings are Lean `String`s (operations work on `String.data`,
  the underlying `List Char`); `slice`, `trim` and the regexes of the source
  are implemented character by character below.
* Arbitrary untrusted JS values (`unknown`) are modelled by the inductive
  `JsValue` (string / number / boolean / null / undefined / array / object).
  JS numbers are modelled as integers (`Int`); the sanitizers only ever
  floor, compare and print them, so fractional doubles are out of scope and
  noted at each use site.
* `deepClone` / `structuredClone` is the identity on immutable values.
* Asynchronous adapter methods never suspend in the mock path; they are
  modelled as pure state-passing functions, with `Except String` for the
  thrown `EngineAdapterError`.
-/

set_option autoImplicit false

/-- Code points that JavaScript's `\s` character class (and `String.trim`)
treats as whitespace. -/
def jsWsCodes : List Nat :=
  [9, 10, 11, 12, 13, 32, 160, 0x1680,
   0x2000, 0x2001, 0x2002, 0x2003, 0x2004, 0x2005, 0x2006, 0x2007,
   0x2008, 0x2009, 0x200A, 0x2028, 0x2029, 0x202F, 0x205F, 0x3000, 0xFEFF]

/-- `c` matches JavaScript's `\s`. -/
def isJsSpace (c : Char) : Bool := decide (c.toNat ∈ jsWsCodes)

/-- `c` matches JavaScript's `\d` (ASCII digits only). -/
def isDigitC (c : Char) : Bool := decide (48 ≤ c.toNat ∧ c.toNat ≤ 57)

/-- `c` matches JavaScript's `\w`: `[A-Za-z0-9_]`. -/
def isWordCharC (c : Char) : Bool :=
  decide ((48 ≤ c.toNat ∧ c.toNat ≤ 57) ∨ (65 ≤ c.toNat ∧ c.toNat ≤ 90) ∨
    (97 ≤ c.toNat ∧ c.toNat ≤ 122) ∨ c.toNat = 95)

/-- ASCII lower-casing, the fragment of `String.prototype.toLowerCase`
exercised by the adapter (all vocabulary and pattern checks are ASCII). -/
def lowerC (c : Char) : Char :=
  if 65 ≤ c.toNat ∧ c.toNat ≤ 90 then Char.ofNat (c.toNat + 32) else c

/-- Characters allowed by the descriptor shape check `/^[a-z_-]+$/`. -/
def isShapeChar (c : Char) : Bool :=
  decide ((97 ≤ c.toNat ∧ c.toNat ≤ 122) ∨ c.toNat = 95 ∨ c.toNat = 45)

/-- Strip leading and trailing JS whitespace (`String.prototype.trim`). -/
def trimL (cs : List Char) : List Char :=
  ((cs.dropWhile isJsSpace).reverse.dropWhile isJsSpace).reverse

/-- Replace every run of JS whitespace by a single `fill` character
(`replace(/\s+/g, fill)`); the flag records whether the previous character
was part of a whitespace run. -/
def collapseGo (fill : Char) : Bool → List Char → List Char
  | _, [] => []
  | inWs, c :: cs =>
    if isJsSpace c then
      if inWs then collapseGo fill true cs else fill :: collapseGo fill true cs
    else c :: collapseGo fill false cs

/-- `value.trim().replace(/\s+/g, " ")` from `clampText`. -/
def normWsL (cs : List Char) : List Char := collapseGo ' ' false (trimL cs)

/-- `candidate.toLowerCase().replace(/\s+/g, "_")` from `sanitizeDescriptor`. -/
def toSnakeL (cs : List Char) : List Char := collapseGo '_' false (cs.map lowerC)

/-- Does `cs` start with `ns`? -/
def startsWithL : List Char → List Char → Bool
  | _, [] => true
  | [], _ :: _ => false
  | c :: cs, d :: ds => c == d && startsWithL cs ds

/-- `String.prototype.includes`: `ns` occurs somewhere in `cs`. -/
def containsSub : List Char → List Char → Bool
  | [], ns => ns.isEmpty
  | c :: cs, ns => startsWithL (c :: cs) ns || containsSub cs ns

/-- The ten alternation tokens of `RESTRICTED_TEXT_PATTERN` (lower case). -/
def restrictedTokens : List (List Char) :=
  ["seed".data, "rng".data, "debug".data, "hypothesis".data, "belief".data,
   "suspicion".data, "credibility".data, "confidence".data,
   "likelihood".data, "probability".data]

/-- Case-insensitive match of token `tok` at the head of `cs`, requiring a
word boundary after the token (the caller checks the boundary before). -/
def matchTok : List Char → List Char → Bool
  | [], [] => true
  | c :: _, [] => !isWordCharC c
  | [], _ :: _ => false
  | c :: cs, t :: ts => lowerC c == t && matchTok cs ts

/-- Scan for `RESTRICTED_TEXT_PATTERN =
\b(seed|rng|debug|hypothesis|belief|suspicion|credibility|confidence|likelihood|probability)\b|\d+(\.\d+)?%`
(case-insensitive). A token matches when the previous character is not a
word character and the character after the token is not a word character;
the percentage alternative matches exactly when some digit is immediately
followed by `%`. -/
def restrictedScan : Bool → List Char → Bool
  | _, [] => false
  | prevWord, c :: rest =>
    (!prevWord && restrictedTokens.any (fun tok => matchTok (c :: rest) tok))
    || (isDigitC c && (match rest with | '%' :: _ => true | _ => false))
    || restrictedScan (isWordCharC c) rest

/-- `RESTRICTED_TEXT_PATTERN.test` on a normalized string. -/
def restrictedTestL (cs : List Char) : Bool := restrictedScan false cs

/-- Arbitrary untrusted JavaScript values arriving at the sanitizer. -/
inductive JsValue where
  | str : String → JsValue
  | num : Int → JsValue
  | bool : Bool → JsValue
  | null : JsValue
  | undefined : JsValue
  | arr : List JsValue → JsValue
  | obj : List (String × JsValue) → JsValue

/-- First binding of `key` in a JS object's field list. -/
def findField : List (String × JsValue) → String → JsValue
  | [], _ => JsValue.undefined
  | (k, v) :: rest, key => if k = key then v else findField rest key

/-- Optional-chained property access `payload?.key`: `undefined` on every
non-object receiver. -/
def jsGet : JsValue → String → JsValue
  | JsValue.obj fields, key => findField fields key
  | _, _ => JsValue.undefined

/-- JS truthiness (`Boolean(v)`). Arrays and objects are truthy; the empty
string, `0`, `false`, `null` and `undefined` are falsy. -/
def jsTruthy : JsValue → Bool
  | JsValue.str s => !s.isEmpty
  | JsValue.num n => n != 0
  | JsValue.bool b => b
  | JsValue.null => false
  | JsValue.undefined => false
  | JsValue.arr _ => true
  | JsValue.obj _ => true

/-- Integer parse of a trimmed decimal string, used by `jsToNumber` below. -/
def parseDecDigits : List Char → Option Nat
  | [] => none
  | cs => cs.foldl (fun acc c =>
      match acc with
      | none => none
      | some n => if isDigitC c then some (n * 10 + (c.toNat - 48)) else none)
      (some 0)

/-- `Number(v)` restricted to the integral values the adapter ever produces:
numbers map to themselves, `null`/booleans to 0/1, strings parse as optional
sign plus decimal digits (empty trims to 0), everything else is NaN
(`none`). Fractional, hex and exponential string forms are outside the model
and map to `none`. -/
def jsToNumber : JsValue → Option Int
  | JsValue.num n => some n
  | JsValue.null => some 0
  | JsValue.bool b => some (if b then 1 else 0)
  | JsValue.undefined => none
  | JsValue.arr _ => none
  | JsValue.obj _ => none
  | JsValue.str s =>
    match trimL s.data with
    | [] => some 0
    | '-' :: ds => (parseDecDigits ds).map (fun n => -(n : Int))
    | '+' :: ds => (parseDecDigits ds).map (fun n => (n : Int))
    | ds => (parseDecDigits ds).map (fun n => (n : Int))

/-- `payload?.x ?? {}`. -/
def orEmptyObj : JsValue → JsValue
  | JsValue.null => JsValue.obj []
  | JsValue.undefined => JsValue.obj []
  | v => v

/-- `EvidenceItem` of `engineAdapter.ts`. -/
@[ext]
structure EvidenceItem where
  id : String
  label : String
  category : String
  state : String
  summary : String
deriving Repr, DecidableEq

/-- `TimelineItem` of `engineAdapter.ts`. -/
@[ext]
structure TimelineItem where
  time : String
  label : String
  details : String
deriving Repr, DecidableEq

/-- `InvestigatorSignals` of `engineAdapter.ts`. -/
@[ext]
structure InvestigatorSignals where
  priority : String
  demeanour : String
  recent_shift : String
deriving Repr, DecidableEq

/-- `PressureState`; pressure labels are kept as strings, as at runtime. -/
@[ext]
structure PressureState where
  public : String
  institutional : String
  personal : String
deriving Repr, DecidableEq

/-- `VisibleState` of `engineAdapter.ts`. `turn` is sanitized to a
non-negative integer, hence `Nat`. -/
@[ext]
structure VisibleState where
  case_id : String
  crime_type : String
  turn : Nat
  status : String
  evidence : List EvidenceItem
  timeline : List TimelineItem
  investigator_signals : InvestigatorSignals
  pressure : PressureState
deriving Repr, DecidableEq

/-- `ActionOption`; the optional `cost` and `disabled_reason` fields are
`Option String`, with `none` for `undefined`. -/
@[ext]
structure ActionOption where
  id : String
  label : String
  enabled : Bool
  cost : Option String
  desc : String
  disabled_reason : Option String
deriving Repr, DecidableEq

/-- `ActionResult` of `engineAdapter.ts`. -/
@[ext]
structure ActionResult where
  success : Bool
  summary : String
deriving Repr, DecidableEq

/-- `ApplyActionResponse` of `engineAdapter.ts`. -/
@[ext]
structure ApplyActionResponse where
  visible_state : VisibleState
  action_result : ActionResult
deriving Repr, DecidableEq

/-- `DEFAULT_SLOTS`. -/
def DEFAULT_SLOTS : List String := ["page-a", "page-b", "page-c"]

/-- The fixed redaction marker substituted by `clampText`. -/
def RESTRICTED_MARKER : String := "Restricted in visible state."

/-- `clampText(value, fallback, limit, redactRestricted)`: non-strings fall
back; the string is trimmed and internal whitespace collapsed; empty results
fall back; redacted fields matching the restricted pattern are replaced by
the marker; otherwise the result is truncated to `limit` characters. -/
def clampText (value : JsValue) (fallback : String) (limit : Nat)
    (redactRestricted : Bool) : String :=
  match value with
  | JsValue.str s =>
    let normalized := normWsL s.data
    if normalized = [] then fallback
    else if redactRestricted && restrictedTestL normalized then RESTRICTED_MARKER
    else ⟨normalized.take limit⟩
  | _ => fallback

/-- The candidate string that `sanitizeDescriptor` checks: the 64-char
clamped input, lower-cased and snake-cased. -/
def descriptorCandidate (value : JsValue) (fallback : String) : List Char :=
  toSnakeL (clampText value fallback 64 false).data

/-- `sanitizeDescriptor(value, fallback)`: clamp to 64 chars, lower-case,
snake-case, then reject on any digit, on the five restricted substrings, or
on failing the `/^[a-z_-]+$/` shape check. -/
def sanitizeDescriptor (value : JsValue) (fallback : String) : String :=
  let candidate := descriptorCandidate value fallback
  if candidate.any isDigitC then fallback
  else if containsSub candidate "seed".data || containsSub candidate "rng".data
      || containsSub candidate "debug".data || containsSub candidate "belief".data
      || containsSub candidate "hypothesis".data then fallback
  else if candidate ≠ [] ∧ candidate.all isShapeChar then ⟨candidate⟩
  else fallback

/-- `STATUS_TERMS`. -/
def STATUS_TERMS : List String := ["active", "contained", "paused", "cold", "closed"]

/-- `QUALITATIVE_TERMS`. -/
def QUALITATIVE_TERMS : List String :=
  ["low", "moderate", "elevated", "high", "critical",
   "uncertain", "probable", "contradictory", "stable", "fragile"]

/-- `EVIDENCE_STATES`. -/
def EVIDENCE_STATES : List String :=
  ["surfaced", "logged", "review", "suppressed", "archived"]

/-- `sanitizeStatus`. -/
def sanitizeStatus (value : JsValue) : String :=
  let status := sanitizeDescriptor value "active"
  if STATUS_TERMS.contains status then status else "active"

/-- `sanitizePressure`. -/
def sanitizePressure (value : JsValue) : String :=
  let pressure := sanitizeDescriptor value "uncertain"
  if QUALITATIVE_TERMS.contains pressure then pressure else "uncertain"

/-- `new Date(Date.UTC(2026, 1, 1, 0, 0, 0)).toISOString()`, the fixed
reference instant substituted for empty or unparseable times. -/
def EPOCH_ISO : String := "2026-02-01T00:00:00.000Z"

/-- Leap year rule of the proleptic Gregorian calendar (as used by JS dates). -/
def isLeapYear (y : Nat) : Bool := y % 4 = 0 ∧ (y % 100 ≠ 0 ∨ y % 400 = 0)

/-- Days in month `m` (1-12) of year `y`. -/
def daysInMonth (y m : Nat) : Nat :=
  if m = 2 then (if isLeapYear y then 29 else 28)
  else if m = 4 ∨ m = 6 ∨ m = 9 ∨ m = 11 then 30
  else 31

/-- Digit value of an ASCII digit character. -/
def digitVal (c : Char) : Nat := c.toNat - 48

/-- Models `!Number.isNaN(new Date(text).getTime())` restricted to the
strict ISO-8601 UTC instant format `YYYY-MM-DDTHH:mm:ss.sssZ` that
`toISOString` emits (the only format whose parsing ECMA-262 pins down and
the only one the adapter itself produces). Other implementation-defined
date formats are treated as unparseable. -/
def isValidIsoDate (s : String) : Bool :=
  match s.data with
  | [y1, y2, y3, y4, '-', m1, m2, '-', d1, d2, 'T',
     h1, h2, ':', n1, n2, ':', s1, s2, '.', f1, f2, f3, 'Z'] =>
    [y1, y2, y3, y4, m1, m2, d1, d2, h1, h2, n1, n2, s1, s2, f1, f2, f3].all isDigitC
    && (let year := ((digitVal y1 * 10 + digitVal y2) * 10 + digitVal y3) * 10 + digitVal y4
        let month := digitVal m1 * 10 + digitVal m2
        let day := digitVal d1 * 10 + digitVal d2
        let hour := digitVal h1 * 10 + digitVal h2
        let minute := digitVal n1 * 10 + digitVal n2
        let second := digitVal s1 * 10 + digitVal s2
        decide (1 ≤ month ∧ month ≤ 12 ∧ 1 ≤ day ∧ day ≤ daysInMonth year month ∧
          hour ≤ 23 ∧ minute ≤ 59 ∧ second ≤ 59))
  | _ => false

/-- `sanitizeIsoTime`: clamp to 48 chars; empty input yields the fixed
reference instant; a parseable instant is re-serialized (for the strict ISO
format this is the identity on the string); anything else also yields the
reference instant. -/
def sanitizeIsoTime (value : JsValue) : String :=
  let text := clampText value "" 48 false
  if text = "" then EPOCH_ISO
  else if isValidIsoDate text then text
  else EPOCH_ISO

/-- Fuel-driven decimal digit printer (fuel is always sufficient at `n + 1`). -/
def natDigitsAux : Nat → Nat → List Char
  | 0, _ => []
  | fuel + 1, n =>
    if n < 10 then [Char.ofNat (48 + n % 10)]
    else natDigitsAux fuel (n / 10) ++ [Char.ofNat (48 + n % 10)]

/-- Decimal digits of `n` (the JS `String(n)` for a non-negative integer). -/
def natDigits (n : Nat) : List Char := natDigitsAux (n + 1) n

/-- JS `String(i)` for integers. -/
def intStr (i : Int) : List Char :=
  if i < 0 then '-' :: natDigits (-i).toNat else natDigits i.toNat

/-- `e${index + 1}` / `event_${index + 1}`-style indexed fallback builders. -/
def evidenceIdFallback (index : Nat) : String := ⟨'e' :: natDigits (index + 1)⟩

/-- `Evidence ${index + 1}`. -/
def evidenceLabelFallback (index : Nat) : String :=
  ⟨"Evidence ".data ++ natDigits (index + 1)⟩

/-- `event_${index + 1}`. -/
def timelineLabelFallback (index : Nat) : String :=
  ⟨"event_".data ++ natDigits (index + 1)⟩

/-- `action_${index + 1}`. -/
def actionIdFallback (index : Nat) : String :=
  ⟨"action_".data ++ natDigits (index + 1)⟩

/-- `Action ${index + 1}`. -/
def actionLabelFallback (index : Nat) : String :=
  ⟨"Action ".data ++ natDigits (index + 1)⟩

/-- `sanitizeEvidence(item, index)`. -/
def sanitizeEvidence (item : JsValue) (index : Nat) : EvidenceItem :=
  let state := sanitizeDescriptor (jsGet item "state") "logged"
  { id := clampText (jsGet item "id") (evidenceIdFallback index) 32 false
    label := clampText (jsGet item "label") (evidenceLabelFallback index) 70 false
    category := sanitizeDescriptor (jsGet item "category") "general"
    state := if EVIDENCE_STATES.contains state then state else "logged"
    summary := clampText (jsGet item "summary") "No summary available." 220 true }

/-- `sanitizeTimeline(item, index)`. -/
def sanitizeTimeline (item : JsValue) (index : Nat) : TimelineItem :=
  { time := sanitizeIsoTime (jsGet item "time")
    label := clampText (jsGet item "label") (timelineLabelFallback index) 60 false
    details := clampText (jsGet item "details") "No details provided." 240 true }

/-- Index-passing map, mirroring `array.map((item, index) => f item index)`. -/
def mapIdxFrom {α β : Type} (f : Nat → α → β) : Nat → List α → List β
  | _, [] => []
  | n, x :: xs => f n x :: mapIdxFrom f (n + 1) xs

/-- `Array.isArray(payload?.evidence) ? payload.evidence : []`. -/
def evidenceSourceOf (input : JsValue) : List JsValue :=
  match jsGet input "evidence" with
  | JsValue.arr l => l
  | _ => []

/-- `Array.isArray(payload?.timeline) ? payload.timeline : []`. -/
def timelineSourceOf (input : JsValue) : List JsValue :=
  match jsGet input "timeline" with
  | JsValue.arr l => l
  | _ => []

/-- `turn` coercion: `Number.isFinite(raw) && raw >= 0 ? Math.floor(raw) : 0`
(over the integral fragment of `jsToNumber`). -/
def sanitizeTurn (input : JsValue) : Nat :=
  match jsToNumber (jsGet input "turn") with
  | some n => if 0 ≤ n then n.toNat else 0
  | none => 0

/-- `sanitizeVisibleState(input)`. -/
def sanitizeVisibleState (input : JsValue) : VisibleState :=
  let signals := orEmptyObj (jsGet input "investigator_signals")
  let pressure := orEmptyObj (jsGet input "pressure")
  { case_id := clampText (jsGet input "case_id") "case_001" 40 false
    crime_type := sanitizeDescriptor (jsGet input "crime_type") "unknown"
    turn := sanitizeTurn input
    status := sanitizeStatus (jsGet input "status")
    evidence := mapIdxFrom (fun i item => sanitizeEvidence item i) 0 (evidenceSourceOf input)
    timeline := mapIdxFrom (fun i item => sanitizeTimeline item i) 0 (timelineSourceOf input)
    investigator_signals :=
      { priority := sanitizeDescriptor (jsGet signals "priority") "uncertain"
        demeanour := sanitizeDescriptor (jsGet signals "demeanour") "uncertain"
        recent_shift := sanitizeDescriptor (jsGet signals "recent_shift") "uncertain" }
    pressure :=
      { public := sanitizePressure (jsGet pressure "public")
        institutional := sanitizePressure (jsGet pressure "institutional")
        personal := sanitizePressure (jsGet pressure "personal") } }

/-- `sanitizeAction(item, index)`. -/
def sanitizeAction (item : JsValue) (index : Nat) : ActionOption :=
  let enabled := jsTruthy (jsGet item "enabled")
  let disabledReason :=
    if enabled then none
    else some (clampText (jsGet item "disabled_reason")
      "Unavailable this turn due to current case conditions." 120 true)
  { id := clampText (jsGet item "id") (actionIdFallback index) 64 false
    label := clampText (jsGet item "label") (actionLabelFallback index) 80 false
    enabled := enabled
    cost := match jsGet item "cost" with
      | JsValue.str s => some (clampText (JsValue.str s) "" 20 false)
      | _ => none
    desc := clampText (jsGet item "desc") "No description available." 200 true
    disabled_reason := disabledReason }

/-- `sanitizeActionsResponse(input).actions`. -/
def sanitizeActionsList (input : JsValue) : List ActionOption :=
  match jsGet input "actions" with
  | JsValue.arr l => mapIdxFrom (fun i item => sanitizeAction item i) 0 l
  | _ => []

/-- `sanitizeActionResult(input)`. -/
def sanitizeActionResult (input : JsValue) : ActionResult :=
  { success := jsTruthy (jsGet input "success")
    summary := clampText (jsGet input "summary") "Action completed." 220 true }

/-- One step of the mulberry32 generator: from the 32-bit state (kept
reduced modulo `2 ^ 32`; all downstream JS coercions are invariant under
this reduction) to the new state and the raw 32-bit output `r`; the JS
`rng()` returns the exact binary float `r / 2 ^ 32`. -/
def mulberryNext (state : Nat) : Nat × Nat :=
  let value := (state + 0x6D2B79F5) % 4294967296
  let t1 := ((value ^^^ (value >>> 15)) * (value ||| 1)) % 4294967296
  let t2 := t1 ^^^ ((t1 + ((t1 ^^^ (t1 >>> 7)) * (t1 ||| 61)) % 4294967296) % 4294967296)
  (value, t2 ^^^ (t2 >>> 14))

/-- `pickFrom(items, rng)` = `items[Math.floor(rng() * items.length)]` with
`rng()` output `r / 2 ^ 32`; the float product is exact for the list sizes
used, so the index is `r * length / 2 ^ 32`. -/
def pickFrom (items : List String) (r : Nat) : String :=
  items.getD (r * items.length / 4294967296) ""

/-- `rng() > 0.5`, i.e. `r / 2 ^ 32 > 1 / 2`. -/
def rngAboveHalf (r : Nat) : Bool := decide (2147483648 < r)

/-- First index satisfying `p` (`Array.prototype.findIndex`, as an Option). -/
def findIdxL {α : Type} (p : α → Bool) : List α → Option Nat
  | [] => none
  | x :: xs => if p x then some 0 else (findIdxL p xs).map (· + 1)

/-- In-place update `l[i] = f l[i]` of a list. -/
def updateAt {α : Type} : List α → Nat → (α → α) → List α
  | [], _, _ => []
  | x :: xs, 0, f => f x :: xs
  | x :: xs, i + 1, f => x :: updateAt xs i f

/-- The ordered pressure scale of `shiftPressure`. -/
def pressureScale : List String := ["low", "moderate", "elevated", "high", "critical"]

/-- `shiftPressure(current, delta)`: labels off the 5-term scale yield
"uncertain"; on-scale labels move by `delta` clamped to the scale. -/
def shiftPressure (current : String) (delta : Int) : String :=
  match findIdxL (fun s => s == current) pressureScale with
  | none => "uncertain"
  | some index =>
    let next := max 0 (min ((pressureScale.length : Int) - 1) ((index : Int) + delta))
    pressureScale.getD next.toNat ""

/-- `String((seed % 900) + 100).padStart(3, "0")` (JS `%` truncates toward
zero, hence `Int.tmod`). -/
def caseIdOf (seed : Int) : String :=
  let digits := intStr (Int.tmod seed 900 + 100)
  ⟨List.replicate (3 - digits.length) '0' ++ digits⟩

/-- Days since 1970-01-01 to civil year/month/day (Gregorian; the standard
era-based conversion used to model `Date.prototype.toISOString`). -/
def civilFromDays (z : Nat) : Nat × Nat × Nat :=
  let z := z + 719468
  let era := z / 146097
  let doe := z % 146097
  let yoe := (doe - doe / 1460 + doe / 36524 - doe / 146096) / 365
  let y := yoe + era * 400
  let doy := doe - (365 * yoe + yoe / 4 - yoe / 100)
  let mp := (5 * doy + 2) / 153
  let d := doy - (153 * mp + 2) / 5 + 1
  let m := if mp < 10 then mp + 3 else mp - 9
  (if m ≤ 2 then y + 1 else y, m, d)

/-- Left-pad a digit string with zeros to width `w`. -/
def padZeros (w : Nat) (digits : List Char) : List Char :=
  List.replicate (w - digits.length) '0' ++ digits

/-- `new Date(ms).toISOString()` for a non-negative millisecond timestamp
with a 4-digit year (all timestamps the mock engine synthesizes). -/
def natMsToIso (ms : Nat) : String :=
  let days := ms / 86400000
  let msOfDay := ms % 86400000
  let hh := msOfDay / 3600000
  let mm := msOfDay % 3600000 / 60000
  let ss := msOfDay % 60000 / 1000
  let fff := msOfDay % 1000
  let ymd := civilFromDays days
  ⟨padZeros 4 (natDigits ymd.1) ++ '-' :: padZeros 2 (natDigits ymd.2.1) ++
   '-' :: padZeros 2 (natDigits ymd.2.2) ++ 'T' :: padZeros 2 (natDigits hh) ++
   ':' :: padZeros 2 (natDigits mm) ++ ':' :: padZeros 2 (natDigits ss) ++
   '.' :: padZeros 3 (natDigits fff) ++ ['Z']⟩

/-- `new Date(Date.UTC(2026, 1, 1, 20 + state.turn, 10, 0)).toISOString()`:
`Date.UTC(2026, 1, 1)` is 1769904000000 ms since the epoch. -/
def mkEventTime (turn : Nat) : String :=
  natMsToIso (1769904000000 + (20 + turn) * 3600000 + 600000)

/-- `appendTimeline(state, label, details)`: append one synthesized entry
and keep the most recent 12 (`slice(-12)`). -/
def appendTimeline (state : VisibleState) (label details : String) : List TimelineItem :=
  let appended := state.timeline ++ [{ time := mkEventTime state.turn, label := label, details := details }]
  appended.drop (appended.length - 12)

/-- `createInitialMockState(seed)`: the seeded deterministic initial state.
The RNG state starts from `seed >>> 0` and is threaded through the ten
`rng()` calls in JS evaluation order (crime type, evidence e2, evidence e4,
turn, priority, demeanour, recent shift, public, institutional, personal). -/
def createInitialMockState (seed : Int) : VisibleState :=
  let v0 := (Int.emod seed 4294967296).toNat
  let s1 := mulberryNext v0
  let crimeType := pickFrom ["murder", "fraud", "arson", "kidnapping"] s1.2
  let caseId := "case_" ++ caseIdOf seed
  let s2 := mulberryNext s1.1
  let s3 := mulberryNext s2.1
  let evidence : List EvidenceItem :=
    [ { id := "e1", label := "CCTV Clip", category := "digital", state := "surfaced",
        summary := "Partial frame captured; vehicle profile remains uncertain." },
      { id := "e2", label := "Station Ledger", category := "document",
        state := if rngAboveHalf s2.2 then "surfaced" else "logged",
        summary := "Entry sequence has one contradictory time-stamp." },
      { id := "e3", label := "Lab Swab", category := "forensic", state := "review",
        summary := "Residue profile linked to probable transfer contact." },
      { id := "e4", label := "Witness Call", category := "witness",
        state := if rngAboveHalf s3.2 then "logged" else "review",
        summary := "Caller timeline is probable but partially contradictory." } ]
  let timeline : List TimelineItem :=
    [ { time := "2026-02-01T20:40:00.000Z", label := "incident",
        details := "Incident logged by control room." },
      { time := "2026-02-01T21:15:00.000Z", label := "first_response",
        details := "Initial perimeter established." },
      { time := "2026-02-01T22:00:00.000Z", label := "evidence_intake",
        details := "Initial digital and physical evidence intake completed." } ]
  let s4 := mulberryNext s3.1
  let s5 := mulberryNext s4.1
  let s6 := mulberryNext s5.1
  let s7 := mulberryNext s6.1
  let s8 := mulberryNext s7.1
  let s9 := mulberryNext s8.1
  let s10 := mulberryNext s9.1
  { case_id := caseId
    crime_type := crimeType
    turn := 1 + s4.2 * 3 / 4294967296
    status := "active"
    evidence := evidence
    timeline := timeline
    investigator_signals :=
      { priority := pickFrom ["forensics", "interviews", "financial", "surveillance"] s5.2
        demeanour := pickFrom ["controlled", "impatient", "guarded", "methodical"] s6.2
        recent_shift := pickFrom ["attention_narrowing", "scope_balancing", "risk_avoidance"] s7.2 }
    pressure :=
      { public := pickFrom ["low", "moderate", "elevated"] s8.2
        institutional := pickFrom ["low", "moderate"] s9.2
        personal := pickFrom ["moderate", "elevated"] s10.2 } }

/-- The fixed 4-item priority rotation of `reframe_priority`. -/
def priorityRotation : List String := ["forensics", "interviews", "financial", "surveillance"]

/-- `applyMockAction(state, actionId)`: the explicit action state machine of
the mock engine (`deepClone` is the identity on values). -/
def applyMockAction (state : VisibleState) (actionId : String) : ApplyActionResponse :=
  if actionId = "remove_evidence" then
    match findIdxL (fun item => item.state == "surfaced") state.evidence with
    | none =>
      { visible_state := state
        action_result := { success := false, summary := "No surfaced evidence could be moved." } }
    | some targetIndex =>
      let next1 := { state with turn := state.turn + 1 }
      let newEvidence := updateAt next1.evidence targetIndex (fun item =>
        { item with
            state := "suppressed"
            summary := "Access restricted pending compliance review." })
      let next2 := { next1 with evidence := newEvidence }
      let newPressure := { next2.pressure with public := shiftPressure next2.pressure.public 1 }
      let next3 := { next2 with pressure := newPressure }
      let newTimeline := appendTimeline next3 "evidence_removed"
        "One surfaced evidence item moved into restricted review."
      let next4 := { next3 with timeline := newTimeline }
      { visible_state := next4
        action_result := { success := true, summary := "Evidence moved to restricted review for this cycle." } }
  else if actionId = "delay_briefing" then
    if state.pressure.public = "critical" then
      { visible_state := state
        action_result := { success := false, summary := "Briefing delay rejected under critical public pressure." } }
    else
      let next1 := { state with turn := state.turn + 1 }
      let newPressure :=
        { next1.pressure with
            public := shiftPressure next1.pressure.public (-1)
            institutional := shiftPressure next1.pressure.institutional 1 }
      let next2 := { next1 with pressure := newPressure }
      let newTimeline := appendTimeline next2 "briefing_delayed"
        "Official briefing pushed by one operational cycle."
      let next3 := { next2 with timeline := newTimeline }
      { visible_state := next3
        action_result := { success := true, summary := "Briefing delayed; institutional pressure increased." } }
  else if actionId = "reframe_priority" then
    let nextIndex :=
      match findIdxL (fun s => s == state.investigator_signals.priority) priorityRotation with
      | none => 0
      | some currentIndex => (currentIndex + 1) % priorityRotation.length
    let newPriority := priorityRotation.getD nextIndex ""
    let next1 := { state with turn := state.turn + 1 }
    let newSignals :=
      { next1.investigator_signals with
          priority := newPriority
          recent_shift := "attention_realignment" }
    let next2 := { next1 with investigator_signals := newSignals }
    let newTimeline := appendTimeline next2 "priority_reframed"
      ("Investigator priority shifted to " ++ newPriority ++ ".")
    let next3 := { next2 with timeline := newTimeline }
    { visible_state := next3
      action_result := { success := true, summary := "Priority shifted to " ++ newPriority ++ "." } }
  else if actionId = "seal_archive" then
    match findIdxL (fun item => item.state == "suppressed") state.evidence with
    | none =>
      { visible_state := state
        action_result := { success := false, summary := "No suppressed item available for archive sealing." } }
    | some targetIndex =>
      let next1 := { state with turn := state.turn + 1 }
      let newEvidence := updateAt next1.evidence targetIndex (fun item =>
        { item with
            state := "archived"
            summary := "Record sealed in archive." })
      let next2 := { next1 with evidence := newEvidence }
      let newPressure :=
        { next2.pressure with institutional := shiftPressure next2.pressure.institutional (-1) }
      let next3 := { next2 with pressure := newPressure }
      let newTimeline := appendTimeline next3 "archive_sealed"
        "Suppressed record sealed in archive storage."
      let next4 := { next3 with timeline := newTimeline }
      { visible_state := next4
        action_result := { success := true, summary := "Archive seal completed for one restricted record." } }
  else
    { visible_state := state
      action_result := { success := false, summary := "Action not recognized by mock adapter." } }

/-- `state = deepClone(response.visible_state)` after an `applyAction`. -/
def mockStep (state : VisibleState) (actionId : String) : VisibleState :=
  (applyMockAction state actionId).visible_state

/-- The visible states produced after each action of a replayed sequence. -/
def mockTraceFrom (state : VisibleState) : List String → List VisibleState
  | [] => []
  | actionId :: rest =>
    let next := mockStep state actionId
    next :: mockTraceFrom next rest

/-- The full observable `VisibleState` sequence of a replay: the initial
`getVisibleState` snapshot followed by the state after each `applyAction`. -/
def mockVisibleTrace (initial : VisibleState) (actions : List String) : List VisibleState :=
  initial :: mockTraceFrom initial actions

/-- The mutable cells owned by one mock adapter instance: the current state
and the snapshot map (JS `Map`, modelled as an insertion-ordered
association list). -/
structure MockAdapterState where
  state : VisibleState
  slots : List (String × VisibleState)
deriving Repr, DecidableEq

/-- `createMockAdapter(seed)`. -/
def createMockAdapter (seed : Int) : MockAdapterState :=
  { state := createInitialMockState seed, slots := [] }

/-- JS `Map.prototype.set`: replace in place if the key exists (keeping its
insertion position), otherwise append. -/
def mapSet (m : List (String × VisibleState)) (k : String) (v : VisibleState) :
    List (String × VisibleState) :=
  if m.any (fun p => p.1 == k) then
    m.map (fun p => if p.1 == k then (k, v) else p)
  else m ++ [(k, v)]

/-- JS `Map.prototype.get`. -/
def mapGet (m : List (String × VisibleState)) (k : String) : Option VisibleState :=
  match m with
  | [] => none
  | (k', v) :: rest => if k' = k then some v else mapGet rest k

/-- Mock `saveSlot(slotId)`. -/
def mockSaveSlot (a : MockAdapterState) (slotId : String) : MockAdapterState :=
  { a with slots := mapSet a.slots slotId a.state }

/-- The message of the `EngineAdapterError` thrown on an unknown slot. -/
def unknownSlotMsg (slotId : String) : String :=
  "No saved data for \"" ++ slotId ++ "\". Save a page first."

/-- Mock `loadSlot(slotId)`: the resulting adapter state together with the
thrown error or returned snapshot. -/
def mockLoadSlot (a : MockAdapterState) (slotId : String) :
    MockAdapterState × Except String VisibleState :=
  match mapGet a.slots slotId with
  | none => (a, Except.error (unknownSlotMsg slotId))
  | some snapshot => ({ a with state := snapshot }, Except.ok snapshot)

/-- Set-based deduplication keeping first occurrences (`new Set([...])`
iteration order). -/
def dedupGo (seen : List String) : List String → List String
  | [] => []
  | x :: xs => if seen.contains x then dedupGo seen xs else x :: dedupGo (x :: seen) xs

/-- `Array.from(new Set(l))`. -/
def dedupKeepFirst (l : List String) : List String := dedupGo [] l

/-- Mock `listSlots()`: `Array.from(new Set([...DEFAULT_SLOTS, ...slots.keys()]))`. -/
def mockListSlots (a : MockAdapterState) : List String :=
  dedupKeepFirst (DEFAULT_SLOTS ++ a.slots.map (fun p => p.1))

/-- Fold a sequence of `saveSlot` calls over a mock adapter. -/
def mockApplySaves (a : MockAdapterState) : List String → MockAdapterState
  | [] => a
  | n :: ns => mockApplySaves (mockSaveSlot a n) ns

/-- The mutable cells owned by one live adapter instance: the last-known
sanitized state (`null` before any successful fetch) and the snapshot map. -/
structure LiveAdapterState where
  current : Option VisibleState
  slots : List (String × VisibleState)
deriving Repr, DecidableEq

/-- Live `saveSlot(slotId)`: a no-op while no state has been fetched. -/
def liveSaveSlot (a : LiveAdapterState) (slotId : String) : LiveAdapterState :=
  match a.current with
  | none => a
  | some st => { a with slots := mapSet a.slots slotId st }

/-- Live `loadSlot(slotId)`. -/
def liveLoadSlot (a : LiveAdapterState) (slotId : String) :
    LiveAdapterState × Except String VisibleState :=
  match mapGet a.slots slotId with
  | none => (a, Except.error (unknownSlotMsg slotId))
  | some snapshot => ({ a with current := some snapshot }, Except.ok snapshot)

/-- Live `listSlots()`: `deepClone(DEFAULT_SLOTS)` — the saved slot names
are not consulted. -/
def liveListSlots (_ : LiveAdapterState) : List String := DEFAULT_SLOTS

/-- Fold a sequence of `saveSlot` calls over a live adapter. -/
def liveApplySaves (a : LiveAdapterState) : List String → LiveAdapterState
  | [] => a
  | n :: ns => liveApplySaves (liveSaveSlot a n) ns

/-- Modelled from the spec's pressure-shift rule (§4.3): one step down the
ordered 5-term scale, clamped at "low"; labels outside the scale yield
"uncertain". Stated from the spec's words, to be compared with the source's
`shiftPressure`. -/
def specPressureStepDown (p : String) : String :=
  if p = "low" then "low"
  else if p = "moderate" then "low"
  else if p = "elevated" then "moderate"
  else if p = "high" then "elevated"
  else if p = "critical" then "high"
  else "uncertain"

/-- The guard-failure condition of the spec's action table: a catalogue
action whose guard predicate fails, or an action id outside the catalogue. -/
def mockGuardFails (st : VisibleState) (actionId : String) : Bool :=
  if actionId = "remove_evidence" then
    (findIdxL (fun item => item.state == "surfaced") st.evidence).isNone
  else if actionId = "delay_briefing" then st.pressure.public == "critical"
  else if actionId = "reframe_priority" then false
  else if actionId = "seal_archive" then
    (findIdxL (fun item => item.state == "suppressed") st.evidence).isNone
  else true

/-- The fixed explanatory summary returned for each failed guard, and the
generic summary for unrecognized action ids. -/
def mockFailSummary (actionId : String) : String :=
  if actionId = "remove_evidence" then "No surfaced evidence could be moved."
  else if actionId = "delay_briefing" then "Briefing delay rejected under critical public pressure."
  else if actionId = "seal_archive" then "No suppressed item available for archive sealing."
  else "Action not recognized by mock adapter."

/-- Re-embedding of a sanitized evidence item as the JS object it is at
runtime (for feeding a sanitizer output back into the sanitizer). -/
def evToJs (e : EvidenceItem) : JsValue :=
  JsValue.obj [("id", JsValue.str e.id), ("label", JsValue.str e.label),
    ("category", JsValue.str e.category), ("state", JsValue.str e.state),
    ("summary", JsValue.str e.summary)]

/-- Re-embedding of a sanitized timeline item as a JS object. -/
def tlToJs (t : TimelineItem) : JsValue :=
  JsValue.obj [("time", JsValue.str t.time), ("label", JsValue.str t.label),
    ("details", JsValue.str t.details)]

/-- Re-embedding of a sanitized `VisibleState` as the JS object it is at
runtime. -/
def stateToJs (st : VisibleState) : JsValue :=
  JsValue.obj
    [("case_id", JsValue.str st.case_id),
     ("crime_type", JsValue.str st.crime_type),
     ("turn", JsValue.num (st.turn : Int)),
     ("status", JsValue.str st.status),
     ("evidence", JsValue.arr (st.evidence.map evToJs)),
     ("timeline", JsValue.arr (st.timeline.map tlToJs)),
     ("investigator_signals", JsValue.obj
       [("priority", JsValue.str st.investigator_signals.priority),
        ("demeanour", JsValue.str st.investigator_signals.demeanour),
        ("recent_shift", JsValue.str st.investigator_signals.recent_shift)]),
     ("pressure", JsValue.obj
       [("public", JsValue.str st.pressure.public),
        ("institutional", JsValue.str st.pressure.institutional),
        ("personal", JsValue.str st.pressure.personal)])]

/-- A clamped text field is "safe" when, if it is a string, its normalized
form fits within the clamp limit, so `slice` does not truncate it. -/
def clampSafeB (v : JsValue) (limit : Nat) : Bool :=
  match v with
  | JsValue.str s => decide ((normWsL s.data).length ≤ limit)
  | _ => true

/-- Per-evidence-entry safety for the idempotence theorem. -/
def evidenceSafeB (v : JsValue) : Bool :=
  clampSafeB (jsGet v "id") 32 && clampSafeB (jsGet v "label") 70 &&
    clampSafeB (jsGet v "summary") 220

/-- Per-timeline-entry safety for the idempotence theorem. -/
def timelineSafeB (v : JsValue) : Bool :=
  clampSafeB (jsGet v "label") 60 && clampSafeB (jsGet v "details") 240

/-- No clamped text field of the state is truncated, and the arrays are no
longer than a JS array can be (so index-derived fallback ids stay short). -/
def stateClampSafeB (v : JsValue) : Bool :=
  clampSafeB (jsGet v "case_id") 40 &&
  decide ((evidenceSourceOf v).length ≤ 4294967295) &&
  (evidenceSourceOf v).all evidenceSafeB &&
  decide ((timelineSourceOf v).length ≤ 4294967295) &&
  (timelineSourceOf v).all timelineSafeB

/-- Iterated pressure shifting by a fixed delta. -/
def repeatShift (delta : Int) : Nat → String → String
  | 0, p => p
  | n + 1, p => repeatShift delta n (shiftPressure p delta)

/-- A small concrete state with no surfaced and no suppressed evidence. -/
def stNoTargets : VisibleState :=
  { case_id := "case_101"
    crime_type := "fraud"
    turn := 2
    status := "active"
    evidence :=
      [{ id := "e1"
         label := "Ledger"
         category := "document"
         state := "logged"
         summary := "Entry sequence reviewed." }]
    timeline := []
    investigator_signals :=
      { priority := "forensics", demeanour := "controlled", recent_shift := "scope_balancing" }
    pressure := { public := "low", institutional := "low", personal := "moderate" } }

/-- A small concrete state whose first evidence item is suppressed. -/
def stSuppressed : VisibleState :=
  { case_id := "case_101"
    crime_type := "fraud"
    turn := 3
    status := "active"
    evidence :=
      [{ id := "e1"
         label := "Ledger"
         category := "document"
         state := "suppressed"
         summary := "Access restricted pending compliance review." },
       { id := "e2"
         label := "Swab"
         category := "forensic"
         state := "review"
         summary := "Residue profile pending." }]
    timeline := []
    investigator_signals :=
      { priority := "forensics", demeanour := "controlled", recent_shift := "scope_balancing" }
    pressure := { public := "low", institutional := "moderate", personal := "moderate" } }

/-- A malformed input whose `timeline` array has 13 entries. -/
def c2BadInput : JsValue :=
  JsValue.obj [("timeline", JsValue.arr (List.replicate 13 JsValue.null))]

/-- A 65-character descriptor input: 64 letters followed by a digit. The
digit survives in the raw string but is cut off by the 64-char clamp. -/
def c4BadStr : String := ⟨List.replicate 64 'a' ++ ['0']⟩

/-- A 41-character `case_id` whose 40-char truncation ends in a space, so a
second sanitization pass trims it differently. -/
def c10BadCaseId : String := ⟨List.replicate 39 'a' ++ [' ', 'b']⟩

/-- The input state witnessing non-idempotence of `sanitizeVisibleState`. -/
def c10BadInput : JsValue := JsValue.obj [("case_id", JsValue.str c10BadCaseId)]

/-! ## Whitespace normalization lemmas -/

theorem collapseGo_of_noWs (f : Char) (b : Bool) (cs : List Char)
    (h : ∀ c ∈ cs, isJsSpace c = false) : collapseGo f b cs = cs := by
  induction cs generalizing b with
  | nil => rfl
  | cons c cs ih =>
    have hc := h c (List.mem_cons_self c cs)
    simp only [collapseGo, hc, Bool.false_eq_true, if_false]
    rw [ih false (fun d hd => h d (List.mem_cons_of_mem c hd))]

theorem collapseGo_false_ne_nil (f : Char) (c : Char) (cs : List Char) :
    collapseGo f false (c :: cs) ≠ [] := by
  by_cases hc : isJsSpace c = true <;> simp [collapseGo, hc]

theorem collapseGo_true_ne_nil (f : Char) (cs : List Char) (c : Char)
    (hmem : c ∈ cs) (hc : isJsSpace c = false) : collapseGo f true cs ≠ [] := by
  induction cs with
  | nil => cases hmem
  | cons d cs ih =>
    by_cases hd : isJsSpace d = true
    · have : c ∈ cs := by
        rcases List.mem_cons.mp hmem with h | h
        · subst h; rw [hc] at hd; cases hd
        · exact h
      simp [collapseGo, hd]
      exact ih this
    · simp [collapseGo, hd]

theorem collapseGo_idem (f : Char) (hf : isJsSpace f = true) (cs : List Char) :
    (∀ b, collapseGo f b (collapseGo f true cs) = collapseGo f true cs) ∧
    collapseGo f false (collapseGo f false cs) = collapseGo f false cs := by
  induction cs with
  | nil => simp [collapseGo]
  | cons c cs ih =>
    by_cases hc : isJsSpace c = true
    · refine ⟨fun b => ?_, ?_⟩
      · simp only [collapseGo, hc, if_true]
        exact ih.1 b
      · simp only [collapseGo, hc, if_true, Bool.false_eq_true, if_false, hf]
        exact congrArg (f :: ·) (ih.1 true)
    · refine ⟨fun b => ?_, ?_⟩ <;>
      · simp only [collapseGo, hc, Bool.false_eq_true, if_false]
        exact congrArg (c :: ·) (ih.2)

theorem head_dropWhile_not (p : Char → Bool) (cs : List Char) (c : Char)
    (h : (cs.dropWhile p).head? = some c) : p c = false := by
  induction cs with
  | nil => cases h
  | cons d cs ih =>
    by_cases hd : p d = true
    · rw [List.dropWhile_cons_of_pos hd] at h
      exact ih h
    · rw [List.dropWhile_cons_of_neg hd] at h
      simp at h
      subst h
      exact Bool.eq_false_iff.mpr hd

theorem getLast_dropWhile (p : Char → Bool) (cs : List Char)
    (h : cs.dropWhile p ≠ []) : (cs.dropWhile p).getLast? = cs.getLast? := by
  induction cs with
  | nil => simp at h
  | cons d cs ih =>
    by_cases hd : p d = true
    · rw [List.dropWhile_cons_of_pos hd] at h ⊢
      rw [ih h]
      have hcs : cs ≠ [] := by
        intro hnil
        subst hnil
        simp [List.dropWhile] at h
      cases cs with
      | nil => cases hcs rfl
      | cons e es => simp [List.getLast?_cons_cons]
    · rw [List.dropWhile_cons_of_neg hd]

theorem trimL_head (cs : List Char) (c : Char) (h : (trimL cs).head? = some c) :
    isJsSpace c = false := by
  unfold trimL at h
  rw [List.head?_reverse] at h
  have hne : (cs.dropWhile isJsSpace).reverse.dropWhile isJsSpace ≠ [] := by
    intro hnil
    rw [hnil] at h
    cases h
  rw [getLast_dropWhile _ _ hne, List.getLast?_reverse] at h
  exact head_dropWhile_not isJsSpace cs c h

theorem trimL_last (cs : List Char) (c : Char) (h : (trimL cs).getLast? = some c) :
    isJsSpace c = false := by
  unfold trimL at h
  rw [List.getLast?_reverse] at h
  exact head_dropWhile_not isJsSpace _ c h

theorem dropWhile_eq_self_of_head (p : Char → Bool) (cs : List Char)
    (h : ∀ c, cs.head? = some c → p c = false) : cs.dropWhile p = cs := by
  cases cs with
  | nil => rfl
  | cons c cs =>
    have := h c rfl
    rw [List.dropWhile_cons_of_neg (by simp [this])]

theorem trimL_eq_self (cs : List Char)
    (h1 : ∀ c, cs.head? = some c → isJsSpace c = false)
    (h2 : ∀ c, cs.getLast? = some c → isJsSpace c = false) : trimL cs = cs := by
  unfold trimL
  rw [dropWhile_eq_self_of_head _ _ h1]
  rw [dropWhile_eq_self_of_head _ _ (fun c hc => by
    rw [List.head?_reverse] at hc
    exact h2 c hc)]
  exact List.reverse_reverse cs

theorem getLast?_cons_ne {α : Type} (c : α) (cs : List α) (h : cs ≠ []) :
    (c :: cs).getLast? = cs.getLast? := by
  cases cs with
  | nil => cases h rfl
  | cons e es => exact List.getLast?_cons_cons

theorem collapseGo_cons_ws_t (f c : Char) (cs : List Char) (hc : isJsSpace c = true) :
    collapseGo f true (c :: cs) = collapseGo f true cs := by
  simp [collapseGo, hc]

theorem collapseGo_cons_ws_f (f c : Char) (cs : List Char) (hc : isJsSpace c = true) :
    collapseGo f false (c :: cs) = f :: collapseGo f true cs := by
  simp [collapseGo, hc]

theorem collapseGo_cons_nws (f c : Char) (b : Bool) (cs : List Char) (hc : isJsSpace c = false) :
    collapseGo f b (c :: cs) = c :: collapseGo f false cs := by
  simp [collapseGo, hc]

theorem collapseGo_lastOk (f : Char) (cs : List Char)
    (h : ∀ c, cs.getLast? = some c → isJsSpace c = false) :
    ∀ b d, (collapseGo f b cs).getLast? = some d → isJsSpace d = false := by
  induction cs with
  | nil => intro b d hd; cases hd
  | cons c cs ih =>
    intro b d hd
    cases cs with
    | nil =>
      have hc : isJsSpace c = false := h c rfl
      rw [collapseGo_cons_nws f c b [] hc] at hd
      simp [collapseGo] at hd
      subst hd
      exact hc
    | cons e es =>
      have htail : ∀ x, (e :: es).getLast? = some x → isJsSpace x = false := by
        intro x hx
        exact h x (by rw [List.getLast?_cons_cons]; exact hx)
      by_cases hc : isJsSpace c = true
      · have hlast : ∃ x ∈ e :: es, isJsSpace x = false := by
          cases hx : (e :: es).getLast? with
          | none => simp at hx
          | some x => exact ⟨x, List.mem_of_mem_getLast? hx, htail x hx⟩
        obtain ⟨x, hxm, hxs⟩ := hlast
        have hnn := collapseGo_true_ne_nil f (e :: es) x hxm hxs
        cases b with
        | true =>
          rw [collapseGo_cons_ws_t f c (e :: es) hc] at hd
          exact ih htail true d hd
        | false =>
          rw [collapseGo_cons_ws_f f c (e :: es) hc, getLast?_cons_ne f _ hnn] at hd
          exact ih htail true d hd
      · have hc2 : isJsSpace c = false := Bool.eq_false_iff.mpr hc
        have hnn := collapseGo_false_ne_nil f e es
        rw [collapseGo_cons_nws f c b (e :: es) hc2, getLast?_cons_ne c _ hnn] at hd
        exact ih htail false d hd

theorem normWsL_idem (cs : List Char) : normWsL (normWsL cs) = normWsL cs := by
  unfold normWsL
  have hsp : isJsSpace ' ' = true := by decide
  have hhead : ∀ c, (collapseGo ' ' false (trimL cs)).head? = some c → isJsSpace c = false := by
    intro c hc
    cases htr : trimL cs with
    | nil => rw [htr] at hc; cases hc
    | cons t ts =>
      have ht : isJsSpace t = false := trimL_head cs t (by rw [htr]; rfl)
      rw [htr, collapseGo_cons_nws ' ' t false ts ht] at hc
      simp at hc
      subst hc
      exact ht
  have hlast : ∀ c, (collapseGo ' ' false (trimL cs)).getLast? = some c → isJsSpace c = false :=
    collapseGo_lastOk ' ' (trimL cs) (trimL_last cs) false
  rw [trimL_eq_self _ hhead hlast]
  exact (collapseGo_idem ' ' hsp (trimL cs)).2

theorem normWsL_of_noWs (cs : List Char)
    (h : ∀ c ∈ cs, isJsSpace c = false) : normWsL cs = cs := by
  unfold normWsL
  rw [trimL_eq_self cs
    (fun c hc => h c (List.mem_of_mem_head? hc))
    (fun c hc => h c (List.mem_of_mem_getLast? hc))]
  exact collapseGo_of_noWs ' ' false cs h

theorem collapseGo_append_noWs (f : Char) (w rest : List Char)
    (h : ∀ c ∈ w, isJsSpace c = false) :
    collapseGo f false (w ++ rest) = w ++ collapseGo f false rest := by
  induction w with
  | nil => rfl
  | cons c w ih =>
    have hc := h c (List.mem_cons_self c w)
    rw [List.cons_append, collapseGo_cons_nws f c false (w ++ rest) hc]
    rw [ih (fun d hd => h d (List.mem_cons_of_mem c hd))]
    rfl

theorem normWsL_word_space_word (w1 w2 : List Char)
    (h1 : ∀ c ∈ w1, isJsSpace c = false) (h2 : ∀ c ∈ w2, isJsSpace c = false)
    (n1 : w1 ≠ []) (n2 : w2 ≠ []) :
    normWsL (w1 ++ ' ' :: w2) = w1 ++ ' ' :: w2 := by
  unfold normWsL
  have hhead : ∀ c, (w1 ++ ' ' :: w2).head? = some c → isJsSpace c = false := by
    intro c hc
    cases w1 with
    | nil => cases n1 rfl
    | cons a w =>
      simp at hc
      subst hc
      exact h1 a (List.mem_cons_self a w)
  have hlast : ∀ c, (w1 ++ ' ' :: w2).getLast? = some c → isJsSpace c = false := by
    intro c hc
    rw [List.getLast?_append] at hc
    have hbw : (' ' :: w2).getLast? = w2.getLast? := getLast?_cons_ne ' ' w2 n2
    rw [hbw] at hc
    cases hx : w2.getLast? with
    | none =>
      rw [List.getLast?_eq_none_iff] at hx
      cases n2 hx
    | some x =>
      rw [hx] at hc
      simp at hc
      subst hc
      exact h2 x (List.mem_of_mem_getLast? hx)
  rw [trimL_eq_self _ hhead hlast]
  rw [collapseGo_append_noWs ' ' w1 (' ' :: w2) h1]
  have hsp : isJsSpace ' ' = true := by decide
  rw [collapseGo_cons_ws_f ' ' ' ' w2 hsp]
  rw [collapseGo_of_noWs ' ' true w2 h2]

/-! ## Clamp and redaction lemmas -/

theorem restrictedTestL_nil : restrictedTestL [] = false := rfl

theorem clampText_str (s fb : String) (limit : Nat) (red : Bool) :
    clampText (JsValue.str s) fb limit red =
      (if normWsL s.data = [] then fb
       else if red && restrictedTestL (normWsL s.data) then RESTRICTED_MARKER
       else ⟨(normWsL s.data).take limit⟩) := rfl

theorem clampText_redacts (s fb : String) (limit : Nat)
    (h : restrictedTestL (normWsL s.data) = true) :
    clampText (JsValue.str s) fb limit true = RESTRICTED_MARKER := by
  rw [clampText_str]
  have hne : normWsL s.data ≠ [] := by
    intro hnil
    rw [hnil, restrictedTestL_nil] at h
    cases h
  rw [if_neg hne]
  simp [h]

theorem clampText_fix (t fb : String) (limit : Nat) (red : Bool)
    (hnorm : normWsL t.data = t.data) (hne : t.data ≠ [])
    (hlen : t.data.length ≤ limit)
    (hred : red = true → restrictedTestL t.data = false) :
    clampText (JsValue.str t) fb limit red = t := by
  rw [clampText_str, hnorm, if_neg hne]
  have htake : t.data.take limit = t.data := List.take_of_length_le hlen
  cases red with
  | false => simp [htake]
  | true =>
    rw [hred rfl]
    simp [htake]

theorem mapIdxFrom_length {α β : Type} (f : Nat → α → β) :
    ∀ (n : Nat) (l : List α), (mapIdxFrom f n l).length = l.length := by
  intro n l
  induction l generalizing n with
  | nil => rfl
  | cons x xs ih => simp [mapIdxFrom, ih]

/-! ## C2 — the sanitizer and the 12-entry timeline cap -/

/-- C2 (counterexample): the claim "sanitizeVisibleState returns a
VisibleState whose timeline field contains at most 12 entries" is false: on
an input whose `timeline` array has 13 entries the sanitized output also
has 13 timeline entries — `sanitizeVisibleState` applies no cap. -/
theorem sanitize_timeline_cap_cex :
    (sanitizeVisibleState c2BadInput).timeline.length = 13 := by decide

/-- C2 (amended): `sanitizeVisibleState` emits exactly one timeline entry
per entry of the input's timeline array (an empty list when the field is
not an array); in particular the output has at most 12 entries exactly when
the input array does. The 12-entry cap is enforced only by the mock
engine's `appendTimeline`, not by the sanitizer. -/
theorem sanitize_timeline_count (input : JsValue) :
    (sanitizeVisibleState input).timeline.length = (timelineSourceOf input).length := by
  show (mapIdxFrom (fun i item => sanitizeTimeline item i) 0 (timelineSourceOf input)).length = _
  exact mapIdxFrom_length _ 0 _

/-! ## C3 — redaction of restricted text -/

/-- C3: every string that, after whitespace normalization, matches the
restricted pattern (a word-boundary token or a digit immediately followed
by `%`) is replaced verbatim by "Restricted in visible state." in each
redaction-checked field: `clampText` with redaction on, evidence summaries,
timeline details, action descriptions, and disabled reasons. -/
theorem redaction_fields_restricted (s fb : String) (limit : Nat) (i : Nat)
    (h : restrictedTestL (normWsL s.data) = true) :
    clampText (JsValue.str s) fb limit true = RESTRICTED_MARKER
    ∧ (sanitizeEvidence (JsValue.obj [("summary", JsValue.str s)]) i).summary = RESTRICTED_MARKER
    ∧ (sanitizeTimeline (JsValue.obj [("details", JsValue.str s)]) i).details = RESTRICTED_MARKER
    ∧ (sanitizeAction (JsValue.obj [("desc", JsValue.str s)]) i).desc = RESTRICTED_MARKER
    ∧ (sanitizeAction (JsValue.obj [("disabled_reason", JsValue.str s)]) i).disabled_reason
        = some RESTRICTED_MARKER := by
  refine ⟨clampText_redacts s fb limit h, ?_, ?_, ?_, ?_⟩
  · exact clampText_redacts s "No summary available." 220 h
  · exact clampText_redacts s "No details provided." 240 h
  · exact clampText_redacts s "No description available." 200 h
  · show some (clampText (JsValue.str s)
      "Unavailable this turn due to current case conditions." 120 true) = some RESTRICTED_MARKER
    rw [clampText_redacts s _ 120 h]

/-- Witness for C3 at the concrete string "the rng seed". -/
theorem redaction_fields_restricted_witness :
    restrictedTestL (normWsL ("the rng seed").data) = true
    ∧ (sanitizeEvidence (JsValue.obj [("summary", JsValue.str "the rng seed")]) 0).summary
        = RESTRICTED_MARKER := by
  refine ⟨by decide, ?_⟩
  exact (redaction_fields_restricted "the rng seed" "x" 220 0 (by decide)).2.1

/-! ## C4 — descriptor fallback -/

/-- C4 (counterexample): the claim as stated is false: this 65-character
input string contains a digit, yet `sanitizeDescriptor` does not return the
fallback, because the digit sits beyond the 64-character clamp applied
before the checks. -/
theorem descriptor_fallback_cex :
    c4BadStr.data.any isDigitC = true
    ∧ sanitizeDescriptor (JsValue.str c4BadStr) "uncertain" ≠ "uncertain" := by decide

/-- C4 (amended): if the descriptor candidate — the input after clamping to
64 characters, lower-casing and whitespace-to-underscore normalization —
contains a digit or one of the literal substrings "seed", "rng", "debug",
"belief", "hypothesis", then `sanitizeDescriptor` returns the supplied
fallback. -/
theorem descriptor_fallback_amended (v : JsValue) (fb : String)
    (h : (descriptorCandidate v fb).any isDigitC = true
      ∨ (containsSub (descriptorCandidate v fb) "seed".data
         || containsSub (descriptorCandidate v fb) "rng".data
         || containsSub (descriptorCandidate v fb) "debug".data
         || containsSub (descriptorCandidate v fb) "belief".data
         || containsSub (descriptorCandidate v fb) "hypothesis".data) = true) :
    sanitizeDescriptor v fb = fb := by
  by_cases hd : (descriptorCandidate v fb).any isDigitC = true
  · simp [sanitizeDescriptor, hd]
  · rcases h with h | h
    · exact absurd h hd
    · simp [sanitizeDescriptor, hd, h]

/-- Witness for C4 at the concrete input "seed value". -/
theorem descriptor_fallback_amended_witness :
    (containsSub (descriptorCandidate (JsValue.str "seed value") "uncertain") "seed".data
     || containsSub (descriptorCandidate (JsValue.str "seed value") "uncertain") "rng".data
     || containsSub (descriptorCandidate (JsValue.str "seed value") "uncertain") "debug".data
     || containsSub (descriptorCandidate (JsValue.str "seed value") "uncertain") "belief".data
     || containsSub (descriptorCandidate (JsValue.str "seed value") "uncertain") "hypothesis".data) = true
    ∧ sanitizeDescriptor (JsValue.str "seed value") "uncertain" = "uncertain" :=
  ⟨by decide, descriptor_fallback_amended (JsValue.str "seed value") "uncertain" (Or.inr (by decide))⟩

/-! ## C7 — pressure shift bounds -/

theorem findIdxL_eq_none_of_not_mem (a : String) (l : List String) (h : a ∉ l) :
    findIdxL (fun s => s == a) l = none := by
  induction l with
  | nil => rfl
  | cons x xs ih =>
    have hx : (x == a) = false := by
      simp only [beq_eq_false_iff_ne]
      intro hxa
      exact h (hxa ▸ List.mem_cons_self x xs)
    simp only [findIdxL, hx, Bool.false_eq_true, if_false]
    rw [ih (fun hm => h (List.mem_cons_of_mem x hm))]
    rfl

/-- C7: the pressure-shift function clamps at both ends of the ordered
5-term scale and maps off-scale labels to "uncertain": shifting "critical"
up any number of times stays "critical", shifting "low" down any number of
times stays "low", and shifting any label outside the scale by any delta
yields "uncertain". -/
theorem pressure_shift_bounds (n : Nat) (lbl : String) (d : Int)
    (h : lbl ∉ pressureScale) :
    repeatShift 1 n "critical" = "critical"
    ∧ repeatShift (-1) n "low" = "low"
    ∧ shiftPressure lbl d = "uncertain" := by
  refine ⟨?_, ?_, ?_⟩
  · induction n with
    | zero => rfl
    | succ n ih =>
      show repeatShift 1 n (shiftPressure "critical" 1) = "critical"
      rw [show shiftPressure "critical" 1 = "critical" from by decide]
      exact ih
  · induction n with
    | zero => rfl
    | succ n ih =>
      show repeatShift (-1) n (shiftPressure "low" (-1)) = "low"
      rw [show shiftPressure "low" (-1) = "low" from by decide]
      exact ih
  · unfold shiftPressure
    rw [findIdxL_eq_none_of_not_mem lbl pressureScale h]

/-- Witness for C7 at three repetitions, the off-scale label "uncertain"
and delta 2. -/
theorem pressure_shift_bounds_witness :
    repeatShift 1 3 "critical" = "critical"
    ∧ repeatShift (-1) 3 "low" = "low"
    ∧ shiftPressure "uncertain" 2 = "uncertain" :=
  pressure_shift_bounds 3 "uncertain" 2 (by decide)

/-! ## C5 — failed guards and unknown actions leave the state unchanged -/

/-- C5: whenever an action's guard fails (`remove_evidence` with no
surfaced item, `delay_briefing` under critical public pressure,
`seal_archive` with no suppressed item) or the action id is outside the
4-action catalogue, `applyMockAction` returns the input state unchanged —
turn, timeline, evidence and pressure untouched — with `success = false`
and the fixed explanatory (or generic "not recognized") summary. -/
theorem mock_action_guard_failure (st : VisibleState) (aid : String)
    (h : mockGuardFails st aid = true) :
    applyMockAction st aid =
      { visible_state := st
        action_result := { success := false, summary := mockFailSummary aid } } := by
  by_cases h1 : aid = "remove_evidence"
  · subst h1
    simp only [mockGuardFails, if_pos rfl] at h
    have hnone := Option.isNone_iff_eq_none.mp h
    simp [applyMockAction, mockFailSummary, hnone]
  · by_cases h2 : aid = "delay_briefing"
    · subst h2
      simp only [mockGuardFails] at h
      simp at h
      simp [applyMockAction, mockFailSummary, h]
    · by_cases h3 : aid = "reframe_priority"
      · subst h3
        simp only [mockGuardFails] at h
        simp at h
      · by_cases h4 : aid = "seal_archive"
        · subst h4
          simp only [mockGuardFails] at h
          simp [Option.isNone_iff_eq_none] at h
          simp [applyMockAction, mockFailSummary, h]
        · simp [applyMockAction, mockFailSummary, h1, h2, h3, h4]

/-- Witness for C5: `seal_archive` on a state with no suppressed evidence. -/
theorem mock_action_guard_failure_witness :
    mockGuardFails stNoTargets "seal_archive" = true
    ∧ applyMockAction stNoTargets "seal_archive" =
      { visible_state := stNoTargets
        action_result :=
          { success := false, summary := mockFailSummary "seal_archive" } } :=
  ⟨by decide, mock_action_guard_failure stNoTargets "seal_archive" (by decide)⟩

/-! ## C6 — seal_archive on a state with a suppressed item -/

theorem shiftPressure_down_eq_spec (p : String) :
    shiftPressure p (-1) = specPressureStepDown p := by
  by_cases h1 : p = "low"
  · subst h1; decide
  by_cases h2 : p = "moderate"
  · subst h2; decide
  by_cases h3 : p = "elevated"
  · subst h3; decide
  by_cases h4 : p = "high"
  · subst h4; decide
  by_cases h5 : p = "critical"
  · subst h5; decide
  have hmem : p ∉ pressureScale := by
    intro hm
    simp [pressureScale] at hm
    rcases hm with h | h | h | h | h <;> contradiction
  unfold shiftPressure
  rw [findIdxL_eq_none_of_not_mem p pressureScale hmem]
  simp [specPressureStepDown, h1, h2, h3, h4, h5]

/-- C6: on every state whose evidence holds a suppressed item (the first
one sitting at index `i`), `seal_archive` succeeds, transitions that item
to state "archived" with its summary replaced, increments `turn` by one,
and shifts institutional pressure one step down the ordered scale (per the
spec's shift rule, `specPressureStepDown`). -/
theorem seal_archive_success (st : VisibleState) (i : Nat)
    (h : findIdxL (fun item => item.state == "suppressed") st.evidence = some i) :
    (applyMockAction st "seal_archive").action_result =
      { success := true, summary := "Archive seal completed for one restricted record." }
    ∧ (applyMockAction st "seal_archive").visible_state.turn = st.turn + 1
    ∧ (applyMockAction st "seal_archive").visible_state.evidence =
        updateAt st.evidence i (fun item =>
          { item with state := "archived", summary := "Record sealed in archive." })
    ∧ (applyMockAction st "seal_archive").visible_state.pressure.institutional =
        specPressureStepDown st.pressure.institutional := by
  have hact : applyMockAction st "seal_archive" =
      (match findIdxL (fun item => item.state == "suppressed") st.evidence with
       | none =>
         { visible_state := st
           action_result :=
             { success := false, summary := "No suppressed item available for archive sealing." } }
       | some targetIndex =>
         let next1 : VisibleState := { st with turn := st.turn + 1 }
         let newEvidence := updateAt next1.evidence targetIndex (fun item =>
           { item with state := "archived", summary := "Record sealed in archive." })
         let next2 := { next1 with evidence := newEvidence }
         let newPressure :=
           { next2.pressure with institutional := shiftPressure next2.pressure.institutional (-1) }
         let next3 := { next2 with pressure := newPressure }
         let newTimeline := appendTimeline next3 "archive_sealed"
           "Suppressed record sealed in archive storage."
         let next4 := { next3 with timeline := newTimeline }
         { visible_state := next4
           action_result :=
             { success := true, summary := "Archive seal completed for one restricted record." } }) := rfl
  rw [hact, h]
  refine ⟨rfl, rfl, rfl, ?_⟩
  exact shiftPressure_down_eq_spec st.pressure.institutional

/-- Witness for C6 on a concrete state whose first item is suppressed. -/
theorem seal_archive_success_witness :
    (applyMockAction stSuppressed "seal_archive").action_result =
      { success := true, summary := "Archive seal completed for one restricted record." }
    ∧ (applyMockAction stSuppressed "seal_archive").visible_state.turn = stSuppressed.turn + 1
    ∧ (applyMockAction stSuppressed "seal_archive").visible_state.evidence =
        updateAt stSuppressed.evidence 0 (fun item =>
          { item with state := "archived", summary := "Record sealed in archive." })
    ∧ (applyMockAction stSuppressed "seal_archive").visible_state.pressure.institutional =
        specPressureStepDown stSuppressed.pressure.institutional :=
  seal_archive_success stSuppressed 0 (by decide)

/-! ## C1 — deterministic replay of the mock engine -/

/-- C1: replay determinism. Two mock engine instances created independently
from the same seed start from the same initial state (the mock engine is a
pure function of the seed and the action sequence), so replaying the same
action-id sequence through `applyAction` on each yields identical
`VisibleState` sequences, the initial `getVisibleState` snapshot included. -/
theorem mock_determinism_replay (seed : Int) (actions : List String)
    (s1 s2 : VisibleState)
    (h1 : s1 = createInitialMockState seed) (h2 : s2 = createInitialMockState seed) :
    mockVisibleTrace s1 actions = mockVisibleTrace s2 actions := by
  subst h1
  subst h2
  rfl

/-- Witness for C1 at seed 7 and a two-action replay. -/
theorem mock_determinism_replay_witness :
    mockVisibleTrace (createInitialMockState 7) ["reframe_priority", "delay_briefing"]
      = mockVisibleTrace (createInitialMockState 7) ["reframe_priority", "delay_briefing"] :=
  mock_determinism_replay 7 ["reframe_priority", "delay_briefing"] _ _ rfl rfl

/-! ## C8 — listSlots and the saved slot names -/

theorem mapSet_keys_mem (m : List (String × VisibleState)) (k : String) (v : VisibleState)
    (x : String) :
    x ∈ (mapSet m k v).map Prod.fst ↔ x ∈ m.map Prod.fst ∨ x = k := by
  unfold mapSet
  by_cases hm : m.any (fun p => p.1 == k) = true
  · rw [if_pos hm]
    have hkeys : (m.map (fun p => if p.1 == k then (k, v) else p)).map Prod.fst
        = m.map Prod.fst := by
      rw [List.map_map]
      apply List.map_congr_left
      intro p _
      by_cases hp : (p.1 == k) = true
      · simp only [Function.comp_apply, hp, if_true]
        exact (beq_iff_eq.mp hp).symm
      · simp only [Function.comp_apply, hp, Bool.false_eq_true, if_false]
    rw [hkeys]
    have hk : k ∈ m.map Prod.fst := by
      rcases List.any_eq_true.mp hm with ⟨p, hpm, hpk⟩
      exact beq_iff_eq.mp hpk ▸ List.mem_map_of_mem Prod.fst hpm
    constructor
    · exact Or.inl
    · rintro (h | rfl)
      · exact h
      · exact hk
  · rw [if_neg hm]
    simp

theorem mockApplySaves_keys (N : List String) (a : MockAdapterState) (x : String) :
    x ∈ (mockApplySaves a N).slots.map Prod.fst ↔ x ∈ a.slots.map Prod.fst ∨ x ∈ N := by
  induction N generalizing a with
  | nil => simp [mockApplySaves]
  | cons n ns ih =>
    show x ∈ (mockApplySaves (mockSaveSlot a n) ns).slots.map Prod.fst ↔ _
    rw [ih]
    unfold mockSaveSlot
    rw [mapSet_keys_mem]
    simp [List.mem_cons]
    tauto

theorem dedupGo_mem (l : List String) (seen : List String) (x : String) :
    x ∈ dedupGo seen l ↔ x ∈ l ∧ x ∉ seen := by
  induction l generalizing seen with
  | nil => simp [dedupGo]
  | cons y ys ih =>
    by_cases hy : seen.contains y = true
    · have hys : y ∈ seen := List.elem_iff.mp hy
      simp only [dedupGo, hy, if_true]
      rw [ih]
      simp only [List.mem_cons]
      constructor
      · rintro ⟨hm, hn⟩
        exact ⟨Or.inr hm, hn⟩
      · rintro ⟨hm | hm, hn⟩
        · exact absurd (hm ▸ hys) hn
        · exact ⟨hm, hn⟩
    · have hys : y ∉ seen := fun hc => hy (List.elem_iff.mpr hc)
      simp only [dedupGo, hy, Bool.false_eq_true, if_false]
      simp only [List.mem_cons]
      rw [ih]
      simp only [List.mem_cons]
      constructor
      · rintro (rfl | ⟨hm, hn⟩)
        · exact ⟨Or.inl rfl, hys⟩
        · refine ⟨Or.inr hm, fun hc => hn (Or.inr hc)⟩
      · rintro ⟨rfl | hm, hn⟩
        · exact Or.inl rfl
        · by_cases hxy : x = y
          · exact Or.inl hxy
          · exact Or.inr ⟨hm, fun hc => (hc.elim hxy hn)⟩

theorem dedupKeepFirst_mem (l : List String) (x : String) :
    x ∈ dedupKeepFirst l ↔ x ∈ l := by
  unfold dedupKeepFirst
  rw [dedupGo_mem]
  simp

/-- C8 (counterexample): the claim fails for the live adapter: after saving
under the fresh name "page-z", the name is present in the snapshot map,
yet `listSlots` returns only the default slot names — it does not merge the
saved names. -/
theorem live_list_slots_cex :
    ((liveSaveSlot { current := some stNoTargets, slots := [] } "page-z").slots.map Prod.fst
      = ["page-z"])
    ∧ "page-z" ∉ liveListSlots (liveSaveSlot { current := some stNoTargets, slots := [] } "page-z") := by
  decide

/-- C8 (amended): for the mock adapter, after any sequence of `saveSlot`
calls with names `N`, `listSlots` returns exactly the default slot names
merged with the names in `N` (as sets, first occurrences kept); the live
adapter's `listSlots` instead always returns just the default slot names,
ignoring saves. -/
theorem list_slots_amended (seed : Int) (N : List String) (x : String)
    (l : LiveAdapterState) :
    (x ∈ mockListSlots (mockApplySaves (createMockAdapter seed) N)
      ↔ x ∈ DEFAULT_SLOTS ∨ x ∈ N)
    ∧ liveListSlots l = DEFAULT_SLOTS := by
  refine ⟨?_, rfl⟩
  unfold mockListSlots
  rw [dedupKeepFirst_mem, List.mem_append, mockApplySaves_keys]
  simp [createMockAdapter]

/-! ## C9 — loading an unknown slot -/

theorem mapGet_eq_none (m : List (String × VisibleState)) (k : String)
    (h : k ∉ m.map Prod.fst) : mapGet m k = none := by
  induction m with
  | nil => rfl
  | cons p rest ih =>
    have hne : ¬p.1 = k := by
      intro he
      exact h (by simp [he])
    show (if p.1 = k then some p.2 else mapGet rest k) = none
    rw [if_neg hne]
    exact ih (fun hc => h (List.mem_cons_of_mem _ hc))

theorem liveApplySaves_keys_sub (N : List String) (a : LiveAdapterState) (x : String)
    (h : x ∈ (liveApplySaves a N).slots.map Prod.fst) :
    x ∈ a.slots.map Prod.fst ∨ x ∈ N := by
  induction N generalizing a with
  | nil => exact Or.inl h
  | cons n ns ih =>
    have h2 := ih (liveSaveSlot a n) h
    rcases h2 with h2 | h2
    · unfold liveSaveSlot at h2
      cases hc : a.current with
      | none =>
        rw [hc] at h2
        exact Or.inl h2
      | some st =>
        rw [hc] at h2
        rw [mapSet_keys_mem] at h2
        rcases h2 with h2 | rfl
        · exact Or.inl h2
        · exact Or.inr (List.mem_cons_self x ns)
    · exact Or.inr (List.mem_cons_of_mem n h2)

/-- C9: loading a slot name to which no save has been performed reports the
Unknown-slot `EngineAdapterError` ("No saved data for ...") and returns the
adapter state unchanged — on both the mock and the live adapter. -/
theorem unknown_slot_load_error (seed : Int) (mockSaves : List String)
    (cur : Option VisibleState) (liveSaves : List String) (slotId : String)
    (hm : slotId ∉ mockSaves) (hl : slotId ∉ liveSaves) :
    mockLoadSlot (mockApplySaves (createMockAdapter seed) mockSaves) slotId
      = (mockApplySaves (createMockAdapter seed) mockSaves,
         Except.error (unknownSlotMsg slotId))
    ∧ liveLoadSlot (liveApplySaves { current := cur, slots := [] } liveSaves) slotId
      = (liveApplySaves { current := cur, slots := [] } liveSaves,
         Except.error (unknownSlotMsg slotId)) := by
  constructor
  · have hkeys : slotId ∉ (mockApplySaves (createMockAdapter seed) mockSaves).slots.map Prod.fst := by
      intro hc
      rw [mockApplySaves_keys] at hc
      rcases hc with hc | hc
      · simp [createMockAdapter] at hc
      · exact hm hc
    unfold mockLoadSlot
    rw [mapGet_eq_none _ _ hkeys]
  · have hkeys : slotId ∉ (liveApplySaves { current := cur, slots := [] } liveSaves).slots.map Prod.fst := by
      intro hc
      rcases liveApplySaves_keys_sub liveSaves _ slotId hc with hc | hc
      · simp at hc
      · exact hl hc
    unfold liveLoadSlot
    rw [mapGet_eq_none _ _ hkeys]

/-- Witness for C9: loading "page-z" after saving only other names. -/
theorem unknown_slot_load_error_witness :
    mockLoadSlot (mockApplySaves (createMockAdapter 1) ["page-a"]) "page-z"
      = (mockApplySaves (createMockAdapter 1) ["page-a"],
         Except.error (unknownSlotMsg "page-z"))
    ∧ liveLoadSlot (liveApplySaves { current := some stNoTargets, slots := [] } ["page-b"]) "page-z"
      = (liveApplySaves { current := some stNoTargets, slots := [] } ["page-b"],
         Except.error (unknownSlotMsg "page-z")) :=
  unknown_slot_load_error 1 ["page-a"] (some stNoTargets) ["page-b"] "page-z"
    (by decide) (by decide)

/-! ## C10 — idempotence machinery: characters and digit strings -/

theorem digitC_not_ws (c : Char) (h : isDigitC c = true) : isJsSpace c = false := by
  simp only [isDigitC, decide_eq_true_eq] at h
  simp only [isJsSpace, jsWsCodes, List.mem_cons, List.not_mem_nil, or_false,
    decide_eq_false_iff_not]
  omega

theorem shapeChar_props (c : Char) (h : isShapeChar c = true) :
    isJsSpace c = false ∧ lowerC c = c ∧ isDigitC c = false := by
  simp only [isShapeChar, decide_eq_true_eq] at h
  refine ⟨?_, ?_, ?_⟩
  · simp only [isJsSpace, jsWsCodes, List.mem_cons, List.not_mem_nil, or_false,
      decide_eq_false_iff_not]
    omega
  · unfold lowerC
    rw [if_neg (by omega)]
  · simp only [isDigitC, decide_eq_false_iff_not]
    omega

theorem digit_props (m : Nat) (hm : m < 10) :
    isJsSpace (Char.ofNat (48 + m)) = false ∧ isDigitC (Char.ofNat (48 + m)) = true := by
  interval_cases m <;> constructor <;> decide

theorem natDigitsAux_mem (fuel n : Nat) (c : Char) (h : c ∈ natDigitsAux fuel n) :
    ∃ m, m < 10 ∧ c = Char.ofNat (48 + m) := by
  induction fuel generalizing n with
  | zero => cases h
  | succ fuel ih =>
    unfold natDigitsAux at h
    by_cases hn : n < 10
    · rw [if_pos hn] at h
      simp at h
      exact ⟨n % 10, Nat.mod_lt n (by omega), h⟩
    · rw [if_neg hn] at h
      rcases List.mem_append.mp h with h | h
      · exact ih (n / 10) h
      · simp at h
        exact ⟨n % 10, Nat.mod_lt n (by omega), h⟩

theorem natDigits_not_ws (n : Nat) (c : Char) (h : c ∈ natDigits n) :
    isJsSpace c = false := by
  obtain ⟨m, hm, rfl⟩ := natDigitsAux_mem (n + 1) n c h
  exact (digit_props m hm).1

theorem natDigitsAux_length (fuel : Nat) :
    ∀ n k, n < 10 ^ k → 1 ≤ k → (natDigitsAux fuel n).length ≤ k := by
  induction fuel with
  | zero => intro n k _ _; simp [natDigitsAux]
  | succ fuel ih =>
    intro n k hn hk
    unfold natDigitsAux
    by_cases h10 : n < 10
    · rw [if_pos h10]
      simpa using hk
    · rw [if_neg h10]
      have hk2 : 2 ≤ k := by
        rcases Nat.lt_or_ge k 2 with hlt | hge
        · interval_cases k
          · omega
        · exact hge
      have hdiv : n / 10 < 10 ^ (k - 1) := by
        rw [Nat.div_lt_iff_lt_mul (by omega)]
        calc n < 10 ^ k := hn
        _ = 10 ^ (k - 1) * 10 := by
          rw [← Nat.pow_succ]
          congr 1
          omega
      have := ih (n / 10) (k - 1) hdiv (by omega)
      simp only [List.length_append, List.length_cons, List.length_nil]
      omega

theorem natDigits_length_le_ten (n : Nat) (h : n ≤ 4294967295) :
    (natDigits n).length ≤ 10 := by
  exact natDigitsAux_length (n + 1) n 10 (by omega) (by omega)

theorem natDigits_ne_nil (n : Nat) : natDigits n ≠ [] := by
  unfold natDigits natDigitsAux
  by_cases h : n < 10 <;> simp [h]

/-! ## C10 — stability of the clamped fallbacks -/

theorem clampText_fix_noWs (t fb : String) (limit : Nat) (red : Bool)
    (hno : ∀ c ∈ t.data, isJsSpace c = false) (hne : t.data ≠ [])
    (hlen : t.data.length ≤ limit)
    (hred : red = true → restrictedTestL t.data = false) :
    clampText (JsValue.str t) fb limit red = t :=
  clampText_fix t fb limit red (normWsL_of_noWs t.data hno) hne hlen hred

theorem evidenceIdFallback_fix (i : Nat) (hi : i + 1 ≤ 4294967295) (fb : String) :
    clampText (JsValue.str (evidenceIdFallback i)) fb 32 false = evidenceIdFallback i := by
  apply clampText_fix_noWs
  · intro c hc
    rcases List.mem_cons.mp hc with rfl | hc
    · decide
    · exact natDigits_not_ws (i + 1) c hc
  · simp [evidenceIdFallback]
  · show ('e' :: natDigits (i + 1)).length ≤ 32
    have := natDigits_length_le_ten (i + 1) hi
    simp only [List.length_cons]
    omega
  · intro hc
    cases hc

theorem evidenceLabelFallback_fix (i : Nat) (hi : i + 1 ≤ 4294967295) (fb : String) :
    clampText (JsValue.str (evidenceLabelFallback i)) fb 70 false = evidenceLabelFallback i := by
  have hdata : (evidenceLabelFallback i).data = "Evidence".data ++ ' ' :: natDigits (i + 1) := rfl
  apply clampText_fix
  · rw [hdata]
    exact normWsL_word_space_word "Evidence".data (natDigits (i + 1))
      (by decide)
      (fun c hc => natDigits_not_ws (i + 1) c hc)
      (by decide) (natDigits_ne_nil (i + 1))
  · rw [hdata]
    intro hnil
    have hlenz := congrArg List.length hnil
    rw [List.length_append, show ("Evidence".data).length = 8 from rfl] at hlenz
    simp at hlenz
  · rw [hdata]
    have := natDigits_length_le_ten (i + 1) hi
    have h8 : ("Evidence".data).length = 8 := rfl
    simp only [List.length_append, List.length_cons, List.length_nil]
    omega
  · intro hc
    cases hc

theorem timelineLabelFallback_fix (i : Nat) (hi : i + 1 ≤ 4294967295) (fb : String) :
    clampText (JsValue.str (timelineLabelFallback i)) fb 60 false = timelineLabelFallback i := by
  have hdata : (timelineLabelFallback i).data = "event_".data ++ natDigits (i + 1) := rfl
  apply clampText_fix_noWs
  · rw [hdata]
    intro c hc
    rcases List.mem_append.mp hc with hc | hc
    · have hev : ∀ d ∈ ("event_").data, isJsSpace d = false := by decide
      exact hev c hc
    · exact natDigits_not_ws (i + 1) c hc
  · rw [hdata]
    intro hnil
    have hlenz := congrArg List.length hnil
    rw [List.length_append, show ("event_".data).length = 6 from rfl] at hlenz
    simp at hlenz
  · rw [hdata]
    have := natDigits_length_le_ten (i + 1) hi
    have h6 : ("event_".data).length = 6 := rfl
    simp only [List.length_append, List.length_cons, List.length_nil]
    omega
  · intro hc
    cases hc

/-! ## C10 — idempotence of the text sanitizers -/

theorem collapseGo_length_le (f : Char) (b : Bool) (cs : List Char) :
    (collapseGo f b cs).length ≤ cs.length := by
  induction cs generalizing b with
  | nil => simp [collapseGo]
  | cons c cs ih =>
    by_cases hc : isJsSpace c = true
    · cases b with
      | true =>
        rw [collapseGo_cons_ws_t f c cs hc]
        have := ih true
        simp only [List.length_cons]
        omega
      | false =>
        rw [collapseGo_cons_ws_f f c cs hc]
        simp only [List.length_cons]
        have := ih true
        omega
    · rw [collapseGo_cons_nws f c b cs (Bool.eq_false_iff.mpr hc)]
      simp only [List.length_cons]
      have := ih false
      omega

theorem toSnakeL_length_le (cs : List Char) : (toSnakeL cs).length ≤ cs.length := by
  unfold toSnakeL
  calc (collapseGo '_' false (cs.map lowerC)).length
      ≤ (cs.map lowerC).length := collapseGo_length_le _ _ _
    _ = cs.length := List.length_map _ _

theorem clampText_length_false (v : JsValue) (fb : String) (limit : Nat)
    (hfb : fb.data.length ≤ limit) :
    (clampText v fb limit false).data.length ≤ limit := by
  cases v with
  | str s =>
    rw [clampText_str]
    by_cases hemp : normWsL s.data = []
    · rw [if_pos hemp]; exact hfb
    · rw [if_neg hemp]
      simp only [Bool.false_and, Bool.false_eq_true, if_false]
      show ((normWsL s.data).take limit).length ≤ limit
      rw [List.length_take]
      omega
  | num n => exact hfb
  | bool b => exact hfb
  | null => exact hfb
  | undefined => exact hfb
  | arr l => exact hfb
  | obj l => exact hfb

theorem clampText_idem (v : JsValue) (fb : String) (limit : Nat) (red : Bool)
    (hfb : clampText (JsValue.str fb) fb limit red = fb)
    (hsafe : clampSafeB v limit = true)
    (hmark : red = true → RESTRICTED_MARKER.data.length ≤ limit) :
    clampText (JsValue.str (clampText v fb limit red)) fb limit red
      = clampText v fb limit red := by
  cases v with
  | str s =>
    simp only [clampSafeB, decide_eq_true_eq] at hsafe
    rw [clampText_str s fb limit red]
    by_cases hemp : normWsL s.data = []
    · rw [if_pos hemp]; exact hfb
    · rw [if_neg hemp]
      by_cases hrt : (red && restrictedTestL (normWsL s.data)) = true
      · rw [if_pos hrt]
        have hred : red = true := by
          cases red
          · simp at hrt
          · rfl
        subst hred
        apply clampText_fix
        · decide
        · decide
        · exact hmark rfl
        · intro _; decide
      · rw [if_neg hrt]
        have htake : (normWsL s.data).take limit = normWsL s.data :=
          List.take_of_length_le hsafe
        rw [htake]
        apply clampText_fix
        · exact normWsL_idem s.data
        · exact hemp
        · exact hsafe
        · intro hr
          subst hr
          cases hb : restrictedTestL (normWsL s.data) with
          | false => rfl
          | true => exact absurd (by simp [hb]) hrt
  | num n => exact hfb
  | bool b => exact hfb
  | null => exact hfb
  | undefined => exact hfb
  | arr l => exact hfb
  | obj l => exact hfb

theorem descriptorCandidate_length (v : JsValue) (fb : String) (hfb : fb.data.length ≤ 64) :
    (descriptorCandidate v fb).length ≤ 64 := by
  unfold descriptorCandidate
  calc (toSnakeL (clampText v fb 64 false).data).length
      ≤ (clampText v fb 64 false).data.length := toSnakeL_length_le _
    _ ≤ 64 := clampText_length_false v fb 64 hfb

theorem toSnakeL_of_shape (cs : List Char) (h : ∀ c ∈ cs, isShapeChar c = true) :
    toSnakeL cs = cs := by
  unfold toSnakeL
  have hmap : cs.map lowerC = cs := by
    conv_rhs => rw [← List.map_id cs]
    exact List.map_congr_left (fun c hc => (shapeChar_props c (h c hc)).2.1)
  rw [hmap]
  exact collapseGo_of_noWs '_' false cs (fun c hc => (shapeChar_props c (h c hc)).1)

theorem sanitizeDescriptor_idem (v : JsValue) (fb : String)
    (hfb : sanitizeDescriptor (JsValue.str fb) fb = fb) (hlen : fb.data.length ≤ 64) :
    sanitizeDescriptor (JsValue.str (sanitizeDescriptor v fb)) fb = sanitizeDescriptor v fb := by
  by_cases hd : (descriptorCandidate v fb).any isDigitC = true
  · have he : sanitizeDescriptor v fb = fb := by
      simp [sanitizeDescriptor, hd]
    rw [he]
    exact hfb
  · by_cases hs : (containsSub (descriptorCandidate v fb) "seed".data
        || containsSub (descriptorCandidate v fb) "rng".data
        || containsSub (descriptorCandidate v fb) "debug".data
        || containsSub (descriptorCandidate v fb) "belief".data
        || containsSub (descriptorCandidate v fb) "hypothesis".data) = true
    · have he : sanitizeDescriptor v fb = fb := by
        simp only [sanitizeDescriptor]
        rw [if_neg hd, if_pos hs]
      rw [he]
      exact hfb
    · by_cases hsh : descriptorCandidate v fb ≠ [] ∧ (descriptorCandidate v fb).all isShapeChar = true
      · have he : sanitizeDescriptor v fb = ⟨descriptorCandidate v fb⟩ := by
          simp only [sanitizeDescriptor]
          rw [if_neg hd, if_neg hs, if_pos hsh]
        have hall : ∀ c ∈ descriptorCandidate v fb, isShapeChar c = true :=
          List.all_eq_true.mp hsh.2
        have hclamp : clampText (JsValue.str (⟨descriptorCandidate v fb⟩ : String)) fb 64 false
            = ⟨descriptorCandidate v fb⟩ := by
          apply clampText_fix_noWs
          · exact fun c hc => (shapeChar_props c (hall c hc)).1
          · exact hsh.1
          · exact descriptorCandidate_length v fb hlen
          · intro hc; cases hc
        have hcand2 : descriptorCandidate (JsValue.str (⟨descriptorCandidate v fb⟩ : String)) fb
            = descriptorCandidate v fb := by
          show toSnakeL (clampText (JsValue.str (⟨descriptorCandidate v fb⟩ : String)) fb 64 false).data
            = descriptorCandidate v fb
          rw [hclamp]
          exact toSnakeL_of_shape _ hall
        rw [he]
        show sanitizeDescriptor (JsValue.str (⟨descriptorCandidate v fb⟩ : String)) fb
          = (⟨descriptorCandidate v fb⟩ : String)
        simp only [sanitizeDescriptor, hcand2]
        rw [if_neg hd, if_neg hs, if_pos hsh]
      · have he : sanitizeDescriptor v fb = fb := by
          simp only [sanitizeDescriptor]
          rw [if_neg hd, if_neg hs, if_neg hsh]
        rw [he]
        exact hfb

theorem sanitizeStatus_mem (v : JsValue) : sanitizeStatus v ∈ STATUS_TERMS := by
  unfold sanitizeStatus
  by_cases hc : STATUS_TERMS.contains (sanitizeDescriptor v "active") = true
  · rw [if_pos hc]
    exact List.elem_iff.mp hc
  · rw [if_neg hc]
    decide

theorem sanitizeStatus_idem (v : JsValue) :
    sanitizeStatus (JsValue.str (sanitizeStatus v)) = sanitizeStatus v := by
  have hall : ∀ x ∈ STATUS_TERMS, sanitizeStatus (JsValue.str x) = x := by decide
  exact hall _ (sanitizeStatus_mem v)

theorem sanitizePressure_mem (v : JsValue) : sanitizePressure v ∈ QUALITATIVE_TERMS := by
  unfold sanitizePressure
  by_cases hc : QUALITATIVE_TERMS.contains (sanitizeDescriptor v "uncertain") = true
  · rw [if_pos hc]
    exact List.elem_iff.mp hc
  · rw [if_neg hc]
    decide

theorem sanitizePressure_idem (v : JsValue) :
    sanitizePressure (JsValue.str (sanitizePressure v)) = sanitizePressure v := by
  have hall : ∀ x ∈ QUALITATIVE_TERMS, sanitizePressure (JsValue.str x) = x := by decide
  exact hall _ (sanitizePressure_mem v)

theorem isValidIso_props (s : String) (h : isValidIsoDate s = true) :
    s.data.length = 24 ∧ ∀ c ∈ s.data, isJsSpace c = false := by
  unfold isValidIsoDate at h
  split at h
  case _ y1 y2 y3 y4 m1 m2 d1 d2 hh1 hh2 n1 n2 ss1 ss2 f1 f2 f3 heq =>
    simp only [Bool.and_eq_true] at h
    have h1 := h.1
    simp only [List.all_cons, List.all_nil, Bool.and_eq_true, Bool.and_true, and_true] at h1
    obtain ⟨hd1, hd2, hd3, hd4, hd5, hd6, hd7, hd8, hd9, hd10, hd11, hd12, hd13, hd14,
      hd15, hd16, hd17⟩ := h1
    constructor
    · rw [heq]
      rfl
    · intro c hc
      rw [heq] at hc
      simp only [List.mem_cons, List.not_mem_nil, or_false] at hc
      rcases hc with rfl | rfl | rfl | rfl | rfl | rfl | rfl | rfl | rfl | rfl | rfl | rfl
        | rfl | rfl | rfl | rfl | rfl | rfl | rfl | rfl | rfl | rfl | rfl | rfl
      all_goals first
        | decide
        | (apply digitC_not_ws; assumption)
  case _ => cases h

theorem sanitizeIsoTime_idem (v : JsValue) :
    sanitizeIsoTime (JsValue.str (sanitizeIsoTime v)) = sanitizeIsoTime v := by
  have hepoch : sanitizeIsoTime (JsValue.str EPOCH_ISO) = EPOCH_ISO := by decide
  have hunfold : ∀ w : JsValue, sanitizeIsoTime w =
      (if clampText w "" 48 false = "" then EPOCH_ISO
       else if isValidIsoDate (clampText w "" 48 false) then clampText w "" 48 false
       else EPOCH_ISO) := fun _ => rfl
  by_cases ht : clampText v "" 48 false = ""
  · have he : sanitizeIsoTime v = EPOCH_ISO := by rw [hunfold v, if_pos ht]
    rw [he]
    exact hepoch
  · by_cases hv : isValidIsoDate (clampText v "" 48 false) = true
    · have he : sanitizeIsoTime v = clampText v "" 48 false := by
        rw [hunfold v, if_neg ht, if_pos hv]
      rw [he]
      obtain ⟨hl24, hnws⟩ := isValidIso_props _ hv
      have hclamp : clampText (JsValue.str (clampText v "" 48 false)) "" 48 false
          = clampText v "" 48 false := by
        apply clampText_fix_noWs _ "" 48 false hnws
        · intro hnil
          rw [hnil] at hl24
          cases hl24
        · omega
        · intro hc
          cases hc
      rw [hunfold (JsValue.str (clampText v "" 48 false)), hclamp, if_neg ht, if_pos hv]
    · have he : sanitizeIsoTime v = EPOCH_ISO := by rw [hunfold v, if_neg ht, if_neg hv]
      rw [he]
      exact hepoch

theorem evState_field_mem (w : JsValue) :
    (if EVIDENCE_STATES.contains (sanitizeDescriptor w "logged")
     then sanitizeDescriptor w "logged" else "logged") ∈ EVIDENCE_STATES := by
  by_cases hc : EVIDENCE_STATES.contains (sanitizeDescriptor w "logged") = true
  · rw [if_pos hc]
    exact List.elem_iff.mp hc
  · rw [if_neg hc]
    decide

theorem evState_norm_idem (s : String) (hmem : s ∈ EVIDENCE_STATES) :
    (if EVIDENCE_STATES.contains (sanitizeDescriptor (JsValue.str s) "logged")
     then sanitizeDescriptor (JsValue.str s) "logged" else "logged") = s := by
  have hall : ∀ x ∈ EVIDENCE_STATES,
      (if EVIDENCE_STATES.contains (sanitizeDescriptor (JsValue.str x) "logged")
       then sanitizeDescriptor (JsValue.str x) "logged" else "logged") = x := by decide
  exact hall s hmem

theorem sanitizeEvidence_evToJs (e : EvidenceItem) (i : Nat) :
    sanitizeEvidence (evToJs e) i =
      { id := clampText (JsValue.str e.id) (evidenceIdFallback i) 32 false
        label := clampText (JsValue.str e.label) (evidenceLabelFallback i) 70 false
        category := sanitizeDescriptor (JsValue.str e.category) "general"
        state := if EVIDENCE_STATES.contains (sanitizeDescriptor (JsValue.str e.state) "logged")
          then sanitizeDescriptor (JsValue.str e.state) "logged" else "logged"
        summary := clampText (JsValue.str e.summary) "No summary available." 220 true } := rfl

theorem sanitizeEvidence_fields (x : JsValue) (i : Nat) :
    sanitizeEvidence x i =
      { id := clampText (jsGet x "id") (evidenceIdFallback i) 32 false
        label := clampText (jsGet x "label") (evidenceLabelFallback i) 70 false
        category := sanitizeDescriptor (jsGet x "category") "general"
        state := if EVIDENCE_STATES.contains (sanitizeDescriptor (jsGet x "state") "logged")
          then sanitizeDescriptor (jsGet x "state") "logged" else "logged"
        summary := clampText (jsGet x "summary") "No summary available." 220 true } := rfl

theorem sanitizeEvidence_idem (x : JsValue) (i : Nat) (hi : i + 1 ≤ 4294967295)
    (hsafe : evidenceSafeB x = true) :
    sanitizeEvidence (evToJs (sanitizeEvidence x i)) i = sanitizeEvidence x i := by
  simp only [evidenceSafeB, Bool.and_eq_true] at hsafe
  obtain ⟨⟨hid, hlb⟩, hsm⟩ := hsafe
  rw [sanitizeEvidence_evToJs (sanitizeEvidence x i) i]
  rw [sanitizeEvidence_fields x i]
  simp only [EvidenceItem.mk.injEq]
  refine ⟨?_, ?_, ?_, ?_, ?_⟩
  · exact clampText_idem (jsGet x "id") (evidenceIdFallback i) 32 false
      (evidenceIdFallback_fix i hi (evidenceIdFallback i)) hid (fun hc => by cases hc)
  · exact clampText_idem (jsGet x "label") (evidenceLabelFallback i) 70 false
      (evidenceLabelFallback_fix i hi (evidenceLabelFallback i)) hlb (fun hc => by cases hc)
  · exact sanitizeDescriptor_idem (jsGet x "category") "general" (by decide) (by decide)
  · exact evState_norm_idem
      (if EVIDENCE_STATES.contains (sanitizeDescriptor (jsGet x "state") "logged")
       then sanitizeDescriptor (jsGet x "state") "logged" else "logged")
      (evState_field_mem (jsGet x "state"))
  · exact clampText_idem (jsGet x "summary") "No summary available." 220 true
      (by decide) hsm (fun _ => by decide)

theorem sanitizeTimeline_tlToJs (t : TimelineItem) (i : Nat) :
    sanitizeTimeline (tlToJs t) i =
      { time := sanitizeIsoTime (JsValue.str t.time)
        label := clampText (JsValue.str t.label) (timelineLabelFallback i) 60 false
        details := clampText (JsValue.str t.details) "No details provided." 240 true } := rfl

theorem sanitizeTimeline_fields (x : JsValue) (i : Nat) :
    sanitizeTimeline x i =
      { time := sanitizeIsoTime (jsGet x "time")
        label := clampText (jsGet x "label") (timelineLabelFallback i) 60 false
        details := clampText (jsGet x "details") "No details provided." 240 true } := rfl

theorem sanitizeTimeline_idem (x : JsValue) (i : Nat) (hi : i + 1 ≤ 4294967295)
    (hsafe : timelineSafeB x = true) :
    sanitizeTimeline (tlToJs (sanitizeTimeline x i)) i = sanitizeTimeline x i := by
  simp only [timelineSafeB, Bool.and_eq_true] at hsafe
  obtain ⟨hlb, hdt⟩ := hsafe
  rw [sanitizeTimeline_tlToJs (sanitizeTimeline x i) i]
  rw [sanitizeTimeline_fields x i]
  simp only [TimelineItem.mk.injEq]
  refine ⟨?_, ?_, ?_⟩
  · exact sanitizeIsoTime_idem (jsGet x "time")
  · exact clampText_idem (jsGet x "label") (timelineLabelFallback i) 60 false
      (timelineLabelFallback_fix i hi (timelineLabelFallback i)) hlb (fun hc => by cases hc)
  · exact clampText_idem (jsGet x "details") "No details provided." 240 true
      (by decide) hdt (fun _ => by decide)

theorem mapIdx_evidence_roundtrip (l : List JsValue) :
    ∀ n : Nat, n + l.length ≤ 4294967295 → (∀ x ∈ l, evidenceSafeB x = true) →
    mapIdxFrom (fun i it => sanitizeEvidence it i) n
      ((mapIdxFrom (fun i it => sanitizeEvidence it i) n l).map evToJs)
      = mapIdxFrom (fun i it => sanitizeEvidence it i) n l := by
  induction l with
  | nil => intro n _ _; rfl
  | cons x xs ih =>
    intro n hb hall
    simp only [List.length_cons] at hb
    have h1 := sanitizeEvidence_idem x n (by omega) (hall x (List.mem_cons_self x xs))
    have h2 := ih (n + 1) (by omega) (fun y hy => hall y (List.mem_cons_of_mem x hy))
    show sanitizeEvidence (evToJs (sanitizeEvidence x n)) n
        :: mapIdxFrom (fun i it => sanitizeEvidence it i) (n + 1)
            ((mapIdxFrom (fun i it => sanitizeEvidence it i) (n + 1) xs).map evToJs)
      = sanitizeEvidence x n :: mapIdxFrom (fun i it => sanitizeEvidence it i) (n + 1) xs
    rw [h1, h2]

theorem mapIdx_timeline_roundtrip (l : List JsValue) :
    ∀ n : Nat, n + l.length ≤ 4294967295 → (∀ x ∈ l, timelineSafeB x = true) →
    mapIdxFrom (fun i it => sanitizeTimeline it i) n
      ((mapIdxFrom (fun i it => sanitizeTimeline it i) n l).map tlToJs)
      = mapIdxFrom (fun i it => sanitizeTimeline it i) n l := by
  induction l with
  | nil => intro n _ _; rfl
  | cons x xs ih =>
    intro n hb hall
    simp only [List.length_cons] at hb
    have h1 := sanitizeTimeline_idem x n (by omega) (hall x (List.mem_cons_self x xs))
    have h2 := ih (n + 1) (by omega) (fun y hy => hall y (List.mem_cons_of_mem x hy))
    show sanitizeTimeline (tlToJs (sanitizeTimeline x n)) n
        :: mapIdxFrom (fun i it => sanitizeTimeline it i) (n + 1)
            ((mapIdxFrom (fun i it => sanitizeTimeline it i) (n + 1) xs).map tlToJs)
      = sanitizeTimeline x n :: mapIdxFrom (fun i it => sanitizeTimeline it i) (n + 1) xs
    rw [h1, h2]

theorem sanitizeTurn_stateToJs (st : VisibleState) : sanitizeTurn (stateToJs st) = st.turn := by
  show (if (0 : Int) ≤ (st.turn : Int) then (st.turn : Int).toNat else 0) = st.turn
  rw [if_pos (Int.natCast_nonneg st.turn)]
  simp

/-! ## C10 — the claim, corrected -/

/-- C10 (counterexample): `sanitizeVisibleState` is not idempotent: on an
input whose normalized `case_id` is 41 characters long, the first pass
truncates to 40 characters ending in a space, and the second pass trims
that space away, producing a different `case_id`. -/
theorem sanitize_idempotent_cex :
    (sanitizeVisibleState (stateToJs (sanitizeVisibleState c10BadInput))).case_id
      ≠ (sanitizeVisibleState c10BadInput).case_id := by decide

theorem sanitizeVisibleState_stateToJs (st : VisibleState) :
    sanitizeVisibleState (stateToJs st) =
      { case_id := clampText (JsValue.str st.case_id) "case_001" 40 false
        crime_type := sanitizeDescriptor (JsValue.str st.crime_type) "unknown"
        turn := if (0 : Int) ≤ (st.turn : Int) then (st.turn : Int).toNat else 0
        status := sanitizeStatus (JsValue.str st.status)
        evidence := mapIdxFrom (fun i item => sanitizeEvidence item i) 0 (st.evidence.map evToJs)
        timeline := mapIdxFrom (fun i item => sanitizeTimeline item i) 0 (st.timeline.map tlToJs)
        investigator_signals :=
          { priority :=
              sanitizeDescriptor (JsValue.str st.investigator_signals.priority) "uncertain"
            demeanour :=
              sanitizeDescriptor (JsValue.str st.investigator_signals.demeanour) "uncertain"
            recent_shift :=
              sanitizeDescriptor (JsValue.str st.investigator_signals.recent_shift) "uncertain" }
        pressure :=
          { public := sanitizePressure (JsValue.str st.pressure.public)
            institutional := sanitizePressure (JsValue.str st.pressure.institutional)
            personal := sanitizePressure (JsValue.str st.pressure.personal) } } := rfl

theorem sanitizeVisibleState_fields (v : JsValue) :
    sanitizeVisibleState v =
      { case_id := clampText (jsGet v "case_id") "case_001" 40 false
        crime_type := sanitizeDescriptor (jsGet v "crime_type") "unknown"
        turn := sanitizeTurn v
        status := sanitizeStatus (jsGet v "status")
        evidence :=
          mapIdxFrom (fun i item => sanitizeEvidence item i) 0 (evidenceSourceOf v)
        timeline :=
          mapIdxFrom (fun i item => sanitizeTimeline item i) 0 (timelineSourceOf v)
        investigator_signals :=
          { priority := sanitizeDescriptor
              (jsGet (orEmptyObj (jsGet v "investigator_signals")) "priority") "uncertain"
            demeanour := sanitizeDescriptor
              (jsGet (orEmptyObj (jsGet v "investigator_signals")) "demeanour") "uncertain"
            recent_shift := sanitizeDescriptor
              (jsGet (orEmptyObj (jsGet v "investigator_signals")) "recent_shift") "uncertain" }
        pressure :=
          { public := sanitizePressure (jsGet (orEmptyObj (jsGet v "pressure")) "public")
            institutional :=
              sanitizePressure (jsGet (orEmptyObj (jsGet v "pressure")) "institutional")
            personal := sanitizePressure (jsGet (orEmptyObj (jsGet v "pressure")) "personal") } }
    := rfl

/-- C10 (amended): `sanitizeVisibleState` is idempotent on every input
whose clamped text fields need no truncation (each is either a non-string
or a string whose whitespace-normalized form fits the field's length limit)
and whose evidence/timeline arrays are no longer than a JS array can be:
re-sanitizing the sanitized state — redaction-checked texts, descriptors,
ISO timestamps, and turn included — changes nothing. -/
theorem sanitize_idempotent_amended (v : JsValue) (h : stateClampSafeB v = true) :
    sanitizeVisibleState (stateToJs (sanitizeVisibleState v)) = sanitizeVisibleState v := by
  simp only [stateClampSafeB, Bool.and_eq_true, List.all_eq_true, decide_eq_true_eq] at h
  obtain ⟨⟨⟨⟨hcase, hevlen⟩, hev⟩, htllen⟩, htl⟩ := h
  rw [sanitizeVisibleState_stateToJs (sanitizeVisibleState v)]
  rw [sanitizeVisibleState_fields v]
  simp only [VisibleState.mk.injEq, InvestigatorSignals.mk.injEq, PressureState.mk.injEq]
  refine ⟨?_, ?_, ?_, ?_, ?_, ?_, ⟨?_, ?_, ?_⟩, ⟨?_, ?_, ?_⟩⟩
  · exact clampText_idem (jsGet v "case_id") "case_001" 40 false
      (by decide) hcase (fun hc => by cases hc)
  · exact sanitizeDescriptor_idem (jsGet v "crime_type") "unknown" (by decide) (by decide)
  · rw [if_pos (Int.natCast_nonneg (sanitizeTurn v))]
    simp
  · exact sanitizeStatus_idem (jsGet v "status")
  · exact mapIdx_evidence_roundtrip (evidenceSourceOf v) 0 (by omega) hev
  · exact mapIdx_timeline_roundtrip (timelineSourceOf v) 0 (by omega) htl
  · exact sanitizeDescriptor_idem (jsGet (orEmptyObj (jsGet v "investigator_signals")) "priority")
      "uncertain" (by decide) (by decide)
  · exact sanitizeDescriptor_idem (jsGet (orEmptyObj (jsGet v "investigator_signals")) "demeanour")
      "uncertain" (by decide) (by decide)
  · exact sanitizeDescriptor_idem
      (jsGet (orEmptyObj (jsGet v "investigator_signals")) "recent_shift")
      "uncertain" (by decide) (by decide)
  · exact sanitizePressure_idem (jsGet (orEmptyObj (jsGet v "pressure")) "public")
  · exact sanitizePressure_idem (jsGet (orEmptyObj (jsGet v "pressure")) "institutional")
  · exact sanitizePressure_idem (jsGet (orEmptyObj (jsGet v "pressure")) "personal")

/-- Witness for the amended C10 at the (trivially safe) input `null`. -/
theorem sanitize_idempotent_amended_witness :
    stateClampSafeB JsValue.null = true
    ∧ sanitizeVisibleState (stateToJs (sanitizeVisibleState JsValue.null))
        = sanitizeVisibleState JsValue.null :=
  ⟨by decide, sanitize_idempotent_amended JsValue.null (by decide)⟩
